import Mathlib

/-!
# RoomStreamerNode: stream buffering engine

A shallow embedding of `Client/src/jamtaba/audio/RoomStreamerNode.cpp`
(classes `AbstractMp3Streamer`, `NinjamRoomStreamerNode`,
`AudioFileStreamerNode`) and theorems about its byte queue, its chunked
decoding, its prebuffering gate, its render step and `stopCurrentStream`.

Conventions of the embedding

* Member functions become pure functions from the object state to the new
  object state. The mutex is not modelled: every function runs atomically.
* C++ `int` values are `Int`. The one conversion that can wrap, the cast
  `(int)maxBytesToDecode` of an `unsigned int`, is `toInt` with explicit
  arithmetic modulo `2 ^ 32`. `QByteArray::size()` and `getFrameLenght()` are
  `int` in the source, so a queue or buffer never holds `2 ^ 31` elements or
  more; lengths are the list lengths.
* The collaborators whose code is not in this file of the repository (the mp3
  decoder, the resampler, sample arithmetic, the peak meter) are parameters,
  gathered in `Collaborators`. `SamplesBuffer`, `FaderProcessor` and
  `QString` are modelled from the specification.
-/

namespace Audio

/-- One `char` of a `QByteArray`. -/
abbrev Byte := Nat

/-- The `QIODevice` behind `device`: only the two queries the source makes. -/
structure QIODevice where
  isOpen : Bool
  isReadable : Bool
deriving DecidableEq, Repr

/-- Modelled from the spec: `QString`, of which the source asks `isNull` and
`isEmpty` only. A null string is empty. -/
inductive QString where
  | null
  | str (chars : List Char)
deriving DecidableEq, Repr

namespace QString

def isNull : QString → Bool
  | null => true
  | str _ => false

def isEmpty : QString → Bool
  | null => true
  | str cs => cs.isEmpty

end QString

/-- Modelled from the spec: the fade processor, "ramps output gain from zero at
stream start"; its state is the position in the ramp. -/
structure FaderProcessor where
  processedSamples : Nat
deriving DecidableEq, Repr

/-- Modelled from the spec: `FaderProcessor::reset`, after which "the next
stream starts with a fade-in". -/
def FaderProcessor.reset (_f : FaderProcessor) : FaderProcessor :=
  { processedSamples := 0 }

/-- Modelled from the spec: `SamplesBuffer` (core/SamplesBuffer.h), "ordered
multichannel PCM samples, frame-indexed": the list of its frames, oldest
first. `F` is the type of one frame. -/
abbrev SamplesBuffer (F : Type) := List F

namespace SamplesBuffer

variable {F : Type}

/-- Modelled from the spec: `getFrameLenght`, the number of frames. -/
def getFrameLenght (b : SamplesBuffer F) : Int := (b.length : Int)

/-- Modelled from the spec: `isEmpty`, no frame is held. -/
def isEmpty (b : SamplesBuffer F) : Bool := decide (getFrameLenght b = 0)

/-- Modelled from the spec: `setFrameLenght`, resize in place; frames kept are
unchanged, frames gained are zero. -/
def setFrameLenght (zeroFrame : F) (b : SamplesBuffer F) (n : Int) : SamplesBuffer F :=
  b.take n.toNat ++ List.replicate (n.toNat - b.length) zeroFrame

/-- Modelled from the spec: `set`, "copy that many frames": the frames both
buffers have are overwritten by the source's, the length is kept. -/
def set (dst src : SamplesBuffer F) : SamplesBuffer F :=
  src.take dst.length ++ dst.drop src.length

/-- Modelled from the spec: `append`, "append grows it". -/
def append (b other : SamplesBuffer F) : SamplesBuffer F := b ++ other

/-- Modelled from the spec: `discardFirstSamples`, "prefix-discard": "discard
shifts it left". -/
def discardFirstSamples (b : SamplesBuffer F) (n : Int) : SamplesBuffer F :=
  b.drop n.toNat

/-- Modelled from the spec: `zero`, "zero-fill": "zero clears without
reallocating"; every frame becomes zero and the length is kept. -/
def zero (zeroFrame : F) (b : SamplesBuffer F) : SamplesBuffer F :=
  b.map (fun _ => zeroFrame)

/-- Modelled from the spec: `add`, "accumulate (add, not overwrite)": the
frames both buffers have are summed into the destination. -/
def add (addFrame : F → F → F) (dst src : SamplesBuffer F) : SamplesBuffer F :=
  List.zipWith addFrame dst src ++ dst.drop src.length

end SamplesBuffer

/-- The collaborators of the engine that live in other files: the mp3 decoder
(`codec.h`), the resampler, frame arithmetic and the peak meter. `D` is the
decoder's state, `F` a frame, `P` a peak. -/
structure Collaborators (D F P : Type) where
  /-- The call `decoder->decode(in, bytesToProcess)`: new decoder state and decoded block. -/
  decode : D → List Byte → D × SamplesBuffer F
  /-- The call `decoder->reset()`. -/
  reset : D → D
  /-- The call `decoder->getSampleRate()`. -/
  getSampleRate : D → Int
  /-- The call `getInputResamplingLength(sourceRate, targetRate, outLenght)`. -/
  getInputResamplingLength : Int → Int → Int → Int
  /-- The call `resampler.resample(input, outLenght)`. -/
  resample : SamplesBuffer F → Int → SamplesBuffer F
  /-- The silent frame. -/
  zeroFrame : F
  /-- Sum of two frames. -/
  addFrame : F → F → F
  /-- The call `computePeak()`. -/
  computePeak : SamplesBuffer F → P
  /-- The call `lastPeak.update(peak)`. -/
  peakUpdate : P → P → P
  /-- The value of the peak meter after `lastPeak.zero()`. -/
  peakZero : P

/-- The constant `AbstractMp3Streamer::MAX_BYTES_PER_DECODING`. -/
def MAX_BYTES_PER_DECODING : Int := 2048

/-- The cast `(int)x` of an `unsigned int` (32 bits, two's complement). -/
def toInt (x : Nat) : Int :=
  if x % 2 ^ 32 < 2 ^ 31 then ((x % 2 ^ 32 : Nat) : Int) else ((x % 2 ^ 32 : Nat) : Int) - 2 ^ 32

/-- The call `QByteArray::right(len)`: the last `len` bytes. -/
def right (bytes : List Byte) (len : Int) : List Byte :=
  bytes.drop (bytes.length - len.toNat)

/-- The members of `AbstractMp3Streamer`. -/
structure AbstractMp3Streamer (D F P : Type) where
  faderProcessor : FaderProcessor
  decoder : D
  device : Option QIODevice
  streaming : Bool
  bufferedSamples : SamplesBuffer F
  bytesToDecode : List Byte
  internalInputBuffer : SamplesBuffer F
  internalOutputBuffer : SamplesBuffer F
  lastPeak : P

namespace AbstractMp3Streamer

variable {D F P : Type}

/-- The constructor `AbstractMp3Streamer(decoder)`; `bufferedSamples(2, 4096)`
followed by `setFrameLenght(0)` holds no frame. -/
def new (env : Collaborators D F P) (decoder : D) : AbstractMp3Streamer D F P :=
  { faderProcessor := { processedSamples := 0 }
    decoder := decoder
    device := none
    streaming := false
    bufferedSamples := []
    bytesToDecode := []
    internalInputBuffer := []
    internalOutputBuffer := []
    lastPeak := env.peakZero }

/-- The function `stopCurrentStream` (lines 41-55). -/
def stopCurrentStream (env : Collaborators D F P) (s : AbstractMp3Streamer D F P) :
    AbstractMp3Streamer D F P :=
  let s1 := { s with faderProcessor := s.faderProcessor.reset }
  let s2 :=
    match s1.device with
    | some _ =>
      { s1 with
        decoder := env.reset s1.decoder
        device := none
        bufferedSamples := SamplesBuffer.zero env.zeroFrame s1.bufferedSamples
        streaming := false }
    | none => s1
  { s2 with bytesToDecode := [] }

/-- The function `getSampleRate` (lines 116-118). -/
def getSampleRate (env : Collaborators D F P) (s : AbstractMp3Streamer D F P) : Int :=
  env.getSampleRate s.decoder

/-- The function `AbstractMp3Streamer::needResamplingFor` (lines 120-125). -/
def needResamplingFor (env : Collaborators D F P) (s : AbstractMp3Streamer D F P)
    (targetSampleRate : Int) : Bool :=
  if !s.streaming then false
  else decide (targetSampleRate ≠ getSampleRate env s)

/-- The function `getSamplesToRender` (lines 57-61); `needResampling` is the
result of the virtual call `needResamplingFor(targetSampleRate)`. -/
def getSamplesToRender (env : Collaborators D F P) (needResampling : Bool)
    (s : AbstractMp3Streamer D F P) (targetSampleRate outLenght : Int) : Int :=
  if needResampling then
    env.getInputResamplingLength (getSampleRate env s) targetSampleRate outLenght
  else outLenght

/-- The body of `AbstractMp3Streamer::processReplacing` (lines 63-109), with
the virtual call `needResamplingFor(targetSampleRate)` resolved to
`needResampling` (both calls see the same object state). Returns the new
object state and the output buffer. -/
def processReplacingWith (env : Collaborators D F P) (needResampling : Bool)
    (s : AbstractMp3Streamer D F P) (out : SamplesBuffer F) (targetSampleRate : Int) :
    AbstractMp3Streamer D F P × SamplesBuffer F :=
  if SamplesBuffer.isEmpty s.bufferedSamples || !s.streaming then (s, out)
  else
    let outLenght := min (SamplesBuffer.getFrameLenght out) (SamplesBuffer.getFrameLenght s.bufferedSamples)
    let samplesToRender := getSamplesToRender env needResampling s targetSampleRate outLenght
    if samplesToRender ≤ 0 then (s, out)
    else
      let input := SamplesBuffer.set
        (SamplesBuffer.setFrameLenght env.zeroFrame s.internalInputBuffer samplesToRender)
        s.bufferedSamples
      let output :=
        if needResampling then
          let resampledBuffer := env.resample input outLenght
          SamplesBuffer.set
            (SamplesBuffer.setFrameLenght env.zeroFrame s.internalOutputBuffer
              (SamplesBuffer.getFrameLenght resampledBuffer))
            resampledBuffer
        else
          SamplesBuffer.set
            (SamplesBuffer.setFrameLenght env.zeroFrame s.internalOutputBuffer
              (SamplesBuffer.getFrameLenght out))
            input
      ({ s with
          internalInputBuffer := input
          internalOutputBuffer := output
          bufferedSamples := SamplesBuffer.discardFirstSamples s.bufferedSamples samplesToRender
          lastPeak := env.peakUpdate s.lastPeak (env.computePeak output) },
        SamplesBuffer.add env.addFrame out output)

/-- The function `AbstractMp3Streamer::processReplacing` on an object whose
`needResamplingFor` is the base one. -/
def processReplacing (env : Collaborators D F P) (s : AbstractMp3Streamer D F P)
    (out : SamplesBuffer F) (targetSampleRate : Int) :
    AbstractMp3Streamer D F P × SamplesBuffer F :=
  processReplacingWith env (needResamplingFor env s targetSampleRate) s out targetSampleRate

/-- The function `AbstractMp3Streamer::initialize` (lines 111-114). -/
def initializeStream (s : AbstractMp3Streamer D F P) (streamPath : QString) :
    AbstractMp3Streamer D F P :=
  { s with streaming := !streamPath.isNull && !streamPath.isEmpty }

/-- The local variables of the loop of `decode` (lines 137-146), and the
chunks handed to the decoder so far, in call order. -/
structure DecodeLoop (D F : Type) where
  decoder : D
  bytesProcessed : Int
  bufferedSamples : SamplesBuffer F
  chunks : List (List Byte)

/-- The loop `while(bytesProcessed < totalBytesToProcess)` of `decode`
(lines 138-146), run for at most `fuel` iterations. -/
def decodeLoop (env : Collaborators D F P) (bytes : List Byte) (totalBytesToProcess : Int) :
    Nat → DecodeLoop D F → DecodeLoop D F
  | 0, st => st
  | fuel + 1, st =>
    if st.bytesProcessed < totalBytesToProcess then
      let bytesToProcess := min (totalBytesToProcess - st.bytesProcessed) MAX_BYTES_PER_DECODING
      let chunk := (bytes.drop st.bytesProcessed.toNat).take bytesToProcess.toNat
      let r := env.decode st.decoder chunk
      decodeLoop env bytes totalBytesToProcess fuel
        { decoder := r.1
          bytesProcessed := st.bytesProcessed + bytesToProcess
          bufferedSamples := SamplesBuffer.append st.bufferedSamples r.2
          chunks := st.chunks ++ [chunk] }
    else st

/-- The function `decode` (lines 127-152), returning with the new object state
the chunks it handed to the decoder, in call order. The loop gets
`totalBytesToProcess` iterations of fuel; `decodeLoop_spec` shows
that it leaves by its own condition. -/
def decodeTrace (env : Collaborators D F P) (s : AbstractMp3Streamer D F P)
    (maxBytesToDecode : Nat) : AbstractMp3Streamer D F P × List (List Byte) :=
  match s.device with
  | none => (s, [])
  | some _ =>
    let totalBytesToProcess : Int := min (toInt maxBytesToDecode) (s.bytesToDecode.length : Int)
    if totalBytesToProcess > 0 then
      let st := decodeLoop env s.bytesToDecode totalBytesToProcess totalBytesToProcess.toNat
        { decoder := s.decoder, bytesProcessed := 0, bufferedSamples := s.bufferedSamples, chunks := [] }
      ({ s with
          decoder := st.decoder
          bufferedSamples := st.bufferedSamples
          bytesToDecode := right s.bytesToDecode ((s.bytesToDecode.length : Int) - st.bytesProcessed) },
        st.chunks)
    else (s, [])

/-- The function `decode` (lines 127-152). -/
def decode (env : Collaborators D F P) (s : AbstractMp3Streamer D F P) (maxBytesToDecode : Nat) :
    AbstractMp3Streamer D F P :=
  (decodeTrace env s maxBytesToDecode).1

/-- The function `setStreamPath` (lines 154-157) on an object whose
`initialize` is the base one. -/
def setStreamPath (env : Collaborators D F P) (s : AbstractMp3Streamer D F P)
    (streamPath : QString) : AbstractMp3Streamer D F P :=
  initializeStream (stopCurrentStream env s) streamPath

end AbstractMp3Streamer

/-- The members `NinjamRoomStreamerNode` adds to `AbstractMp3Streamer`;
`httpClient` records whether the pointer is non-null. -/
structure NinjamRoomStreamerNode (D F P : Type) extends AbstractMp3Streamer D F P where
  bufferTime : Int
  httpClient : Bool
  buffering : Bool

namespace NinjamRoomStreamerNode

variable {D F P : Type}

/-- The function `NinjamRoomStreamerNode::needResamplingFor` (lines 184-189). -/
def needResamplingFor (env : Collaborators D F P) (s : NinjamRoomStreamerNode D F P)
    (targetSampleRate : Int) : Bool :=
  if !s.streaming || s.buffering then false
  else AbstractMp3Streamer.needResamplingFor env s.toAbstractMp3Streamer targetSampleRate

/-- The function `NinjamRoomStreamerNode::initialize` (lines 191-207); `reply`
is the `QNetworkReply` that `httpClient->get` returns. -/
def initializeStream (env : Collaborators D F P) (s : NinjamRoomStreamerNode D F P)
    (streamPath : QString) (reply : QIODevice) : NinjamRoomStreamerNode D F P :=
  let s1 : NinjamRoomStreamerNode D F P :=
    { s with toAbstractMp3Streamer := AbstractMp3Streamer.initializeStream s.toAbstractMp3Streamer streamPath }
  let s2 : NinjamRoomStreamerNode D F P :=
    { s1 with
      buffering := true
      bufferedSamples := SamplesBuffer.zero env.zeroFrame s1.bufferedSamples
      bytesToDecode := [] }
  if !streamPath.isEmpty then
    { s2 with httpClient := true, device := some reply }
  else s2

/-- The function `setStreamPath` (lines 154-157) on a `NinjamRoomStreamerNode`:
the virtual `initialize` is the one of lines 191-207. -/
def setStreamPath (env : Collaborators D F P) (s : NinjamRoomStreamerNode D F P)
    (streamPath : QString) (reply : QIODevice) : NinjamRoomStreamerNode D F P :=
  initializeStream env
    { s with toAbstractMp3Streamer := AbstractMp3Streamer.stopCurrentStream env s.toAbstractMp3Streamer }
    streamPath reply

/-- The function `stopCurrentStream` (lines 41-55) on a `NinjamRoomStreamerNode`. -/
def stopCurrentStream (env : Collaborators D F P) (s : NinjamRoomStreamerNode D F P) :
    NinjamRoomStreamerNode D F P :=
  { s with toAbstractMp3Streamer := AbstractMp3Streamer.stopCurrentStream env s.toAbstractMp3Streamer }

/-- The function `decode` (lines 127-152) on a `NinjamRoomStreamerNode`. -/
def decode (env : Collaborators D F P) (s : NinjamRoomStreamerNode D F P) (maxBytesToDecode : Nat) :
    NinjamRoomStreamerNode D F P :=
  { s with toAbstractMp3Streamer := AbstractMp3Streamer.decode env s.toAbstractMp3Streamer maxBytesToDecode }

/-- The function `on_reply_error` (lines 209-213): the object state and the
messages emitted through the signal `error`. -/
def on_reply_error (s : NinjamRoomStreamerNode D F P) (_error : Nat) :
    NinjamRoomStreamerNode D F P × List String :=
  (s, ["ERROR playing room stream"])

/-- The function `on_reply_read` (lines 215-228); `payload` is what
`device->readAll()` returns. -/
def on_reply_read (s : NinjamRoomStreamerNode D F P) (payload : List Byte) :
    NinjamRoomStreamerNode D F P :=
  match s.device with
  | none => s
  | some device =>
    if device.isOpen && device.isReadable then
      { s with bytesToDecode := s.bytesToDecode ++ payload }
    else s

/-- The decode step of `NinjamRoomStreamerNode::processReplacing`
(lines 237-248): the state when line 252 is reached. -/
def processReplacingDecode (env : Collaborators D F P) (s : NinjamRoomStreamerNode D F P)
    (out : SamplesBuffer F) (sampleRate : Int) : NinjamRoomStreamerNode D F P :=
  let s1 :=
    if !s.buffering then
      let outLenght := SamplesBuffer.getFrameLenght out
      let samplesToRender := AbstractMp3Streamer.getSamplesToRender env
        (needResamplingFor env s sampleRate) s.toAbstractMp3Streamer sampleRate outLenght
      if SamplesBuffer.getFrameLenght s.bufferedSamples < samplesToRender then decode env s 4096
      else s
    else s
  decode env s1 4096

/-- The function `NinjamRoomStreamerNode::processReplacing` (lines 234-265). -/
def processReplacing (env : Collaborators D F P) (s : NinjamRoomStreamerNode D F P)
    (out : SamplesBuffer F) (sampleRate : Int) : NinjamRoomStreamerNode D F P × SamplesBuffer F :=
  let s2 := processReplacingDecode env s out sampleRate
  let s3 :=
    if s2.buffering &&
        decide (SamplesBuffer.getFrameLenght s2.bufferedSamples ≥ s2.bufferTime * env.getSampleRate s2.decoder)
    then { s2 with buffering := false }
    else s2
  if !s3.buffering then
    let r := AbstractMp3Streamer.processReplacingWith env (needResamplingFor env s3 sampleRate)
      s3.toAbstractMp3Streamer out sampleRate
    ({ s3 with toAbstractMp3Streamer := r.1 }, r.2)
  else
    ({ s3 with lastPeak := env.peakZero }, out)

/-- The constructor `NinjamRoomStreamerNode(bufferTimeInSeconds)`
(lines 174-181): it ends with `setStreamPath("")`, which sets `buffering`. -/
def new (env : Collaborators D F P) (decoder : D) (bufferTimeInSeconds : Int) :
    NinjamRoomStreamerNode D F P :=
  setStreamPath env
    { toAbstractMp3Streamer := AbstractMp3Streamer.new env decoder
      bufferTime := bufferTimeInSeconds
      httpClient := false
      buffering := false }
    (QString.str []) { isOpen := false, isReadable := false }

end NinjamRoomStreamerNode

namespace AudioFileStreamerNode

variable {D F P : Type}

/-- The function `AudioFileStreamerNode::initialize` (lines 275-283);
`content` is what the file holds, `none` when it cannot be opened (then
`readAll` returns nothing). -/
def initializeStream (s : AbstractMp3Streamer D F P) (streamPath : QString)
    (content : Option (List Byte)) : AbstractMp3Streamer D F P :=
  let s1 := AbstractMp3Streamer.initializeStream s streamPath
  { s1 with
    device := some { isOpen := content.isSome, isReadable := content.isSome }
    bytesToDecode := s1.bytesToDecode ++ content.getD [] }

/-- The function `setStreamPath` (lines 154-157) on an `AudioFileStreamerNode`. -/
def setStreamPath (env : Collaborators D F P) (s : AbstractMp3Streamer D F P)
    (streamPath : QString) (content : Option (List Byte)) : AbstractMp3Streamer D F P :=
  initializeStream (AbstractMp3Streamer.stopCurrentStream env s) streamPath content

/-- The loop of `AudioFileStreamerNode::processReplacing` (lines 290-293), run
for at most `fuel` iterations: `none` when the loop condition still holds
after them. -/
def topUp (env : Collaborators D F P) (outLenght : Int) :
    Nat → AbstractMp3Streamer D F P → Option (AbstractMp3Streamer D F P)
  | 0, s => if SamplesBuffer.getFrameLenght s.bufferedSamples < outLenght then none else some s
  | fuel + 1, s =>
    if SamplesBuffer.getFrameLenght s.bufferedSamples < outLenght then
      topUp env outLenght fuel (AbstractMp3Streamer.decode env s (1024 + 1024))
    else some s

/-- The function `AudioFileStreamerNode::processReplacing` (lines 289-297),
its loop run for at most `fuel` iterations. -/
def processReplacing (env : Collaborators D F P) (fuel : Nat) (s : AbstractMp3Streamer D F P)
    (out : SamplesBuffer F) (sampleRate : Int) :
    Option (AbstractMp3Streamer D F P × SamplesBuffer F) :=
  (topUp env (SamplesBuffer.getFrameLenght out) fuel s).map
    (fun s1 => AbstractMp3Streamer.processReplacing env s1 out sampleRate)

end AudioFileStreamerNode

/-- Modelled from the spec: `getInputResamplingLength` (declared outside this
file), "the number of input frames needed to produce `outLength` output frames
at the target rate (a ratio computed from source/target rates)":
`outLenght * source / target`, rounded up. -/
def getInputResamplingLength (sourceSampleRate targetSampleRate outLenght : Int) : Int :=
  (sourceSampleRate * outLenght + targetSampleRate - 1) / targetSampleRate

/-- A toy set of collaborators for concrete evaluation: frames and peaks are
integers, the decoder state counts the bytes it was given and decodes every
byte to one frame of the same value, at 44100 Hz. -/
def toyEnv : Collaborators Nat Int Int :=
  { decode := fun d chunk => (d + chunk.length, chunk.map (fun b => (b : Int)))
    reset := fun _ => 0
    getSampleRate := fun _ => 44100
    getInputResamplingLength := getInputResamplingLength
    resample := fun input outLenght => List.replicate outLenght.toNat (input.headD 0)
    zeroFrame := 0
    addFrame := fun a b => a + b
    computePeak := fun b => b.foldl (fun m x => max m x.natAbs) 0
    peakUpdate := fun p q => max p q
    peakZero := 0 }

/-- The chunk lengths of `k` bytes cut into pieces of 2048: full pieces, then
the remainder when there is one. -/
def chunkLengths (k : Nat) : List Nat :=
  List.replicate (k / 2048) 2048 ++ (if k % 2048 = 0 then [] else [k % 2048])

namespace AbstractMp3Streamer

variable {D F P : Type}

/-- The number of bytes one call `decode(maxBytesToDecode)` takes from a queue
of `n` bytes when a producer is attached. -/
def consumed (maxBytesToDecode n : Nat) : Nat :=
  (min (toInt maxBytesToDecode) (n : Int)).toNat

/-- An engine with a producer attached and 10000 queued bytes, pushed as
6000 and then 4000. -/
def scenarioA : AbstractMp3Streamer Nat Int Int :=
  { AbstractMp3Streamer.new toyEnv 0 with
    device := some { isOpen := true, isReadable := true }
    streaming := true
    bytesToDecode := List.replicate 6000 1 ++ List.replicate 4000 2 }

/-- The state after `calls` consecutive calls `decode(c)`, nothing pushed in
between. -/
def decodeRepeat (env : Collaborators D F P) (c : Nat) :
    Nat → AbstractMp3Streamer D F P → AbstractMp3Streamer D F P
  | 0, s => s
  | calls + 1, s => decodeRepeat env c calls (decode env s c)

/-- Repeated `decode(c)` empties the byte queue in exactly `calls` calls: the
queue is empty after them and after no smaller number of calls. -/
def drainsInExactly (env : Collaborators D F P) (c : Nat) (s : AbstractMp3Streamer D F P)
    (calls : Nat) : Prop :=
  (decodeRepeat env c calls s).bytesToDecode = [] ∧
    ∀ j, j < calls → (decodeRepeat env c j s).bytesToDecode ≠ []

/-- The number of calls the specification gives for draining `n` bytes with
`decode(c)`: `ceil (n / min (c, MAX_CHUNK))`, `MAX_CHUNK = 2048`. -/
def claimedDrainCalls (n c : Nat) : Nat :=
  (n + min c 2048 - 1) / min c 2048

/-- An engine with a producer attached and 4096 queued bytes. -/
def twoChunks : AbstractMp3Streamer Nat Int Int :=
  { AbstractMp3Streamer.new toyEnv 0 with
    device := some { isOpen := true, isReadable := true }
    streaming := true
    bytesToDecode := List.replicate 4096 7 }

end AbstractMp3Streamer

namespace NinjamRoomStreamerNode

variable {D F P : Type}

/-- One event of a stream session as far as the byte queue goes: the
transport delivers `payload` (`on_reply_read`), or the render path calls
`decode(maxBytesToDecode)`. -/
inductive SessionOp where
  | push (payload : List Byte)
  | decode (maxBytesToDecode : Nat)
deriving DecidableEq, Repr

/-- Runs the events in order, from a state and the chunks handed to the
decoder so far; returns the final state and all chunks handed over. -/
def runSession (env : Collaborators D F P) :
    List SessionOp → NinjamRoomStreamerNode D F P × List (List Byte) →
      NinjamRoomStreamerNode D F P × List (List Byte)
  | [], acc => acc
  | SessionOp.push payload :: ops, acc =>
    runSession env ops (on_reply_read acc.1 payload, acc.2)
  | SessionOp.decode maxBytesToDecode :: ops, acc =>
    runSession env ops
      ({ acc.1 with toAbstractMp3Streamer :=
          (AbstractMp3Streamer.decodeTrace env acc.1.toAbstractMp3Streamer maxBytesToDecode).1 },
        acc.2 ++ (AbstractMp3Streamer.decodeTrace env acc.1.toAbstractMp3Streamer maxBytesToDecode).2)

/-- The payloads pushed by the events, concatenated in arrival order. -/
def pushedBytes : List SessionOp → List Byte
  | [] => []
  | SessionOp.push payload :: ops => payload ++ pushedBytes ops
  | SessionOp.decode _ :: ops => pushedBytes ops

/-- A session that has just been opened: producer attached, nothing queued. -/
def openSession : NinjamRoomStreamerNode Nat Int Int :=
  setStreamPath toyEnv (new toyEnv 0 3) (QString.str ['u', 'r', 'l'])
    { isOpen := true, isReadable := true }

/-- A session that is buffering with `frames` frames in the sample buffer,
`bufferTime = 3`, and nothing left in the byte queue. -/
def bufferingWith (frames : Nat) : NinjamRoomStreamerNode Nat Int Int :=
  { openSession with bufferedSamples := List.replicate frames 1 }

/-- A session that has left buffering, with three frames buffered. -/
def streamingSession : NinjamRoomStreamerNode Nat Int Int :=
  { openSession with buffering := false, bufferedSamples := [1, 2, 3] }

end NinjamRoomStreamerNode

namespace AbstractMp3Streamer

variable {D F P : Type}

/-- A streaming engine with three buffered frames and fresh scratch buffers. -/
def threeFrames : AbstractMp3Streamer Nat Int Int :=
  { AbstractMp3Streamer.new toyEnv 0 with
    device := some { isOpen := true, isReadable := true }
    streaming := true
    bufferedSamples := [5, 5, 1] }

/-- An engine on which the base `initialize` was called with a non-empty path
and no producer was attached, holding one frame. -/
def streamingWithoutProducer : AbstractMp3Streamer Nat Int Int :=
  { initializeStream (AbstractMp3Streamer.new toyEnv 0) (QString.str ['a']) with
    bufferedSamples := [9] }

end AbstractMp3Streamer

namespace AudioFileStreamerNode

variable {D F P : Type}

/-- The file engine after `setStreamPath` with the path of a file that cannot
be opened: streaming, a producer attached, nothing queued, nothing buffered. -/
def failedOpen : AbstractMp3Streamer Nat Int Int :=
  setStreamPath toyEnv (AbstractMp3Streamer.new toyEnv 0) (QString.str ['x', '.', 'm', 'p', '3']) none

end AudioFileStreamerNode

namespace AbstractMp3Streamer

/-- An engine without producer that still has three bytes queued. -/
def queuedWithoutProducer : AbstractMp3Streamer Nat Int Int :=
  { AbstractMp3Streamer.new toyEnv 0 with bytesToDecode := [1, 2, 3] }

end AbstractMp3Streamer

namespace AbstractMp3Streamer

variable {D F P : Type}

/-- The decoder run over `chunks` in order from state `d`: its final state and
the block it returned for each chunk, in chunk order. -/
def decodeBlocks (env : Collaborators D F P) (d : D) (chunks : List (List Byte)) :
    D × List (SamplesBuffer F) :=
  chunks.foldl
    (fun acc chunk => ((env.decode acc.1 chunk).1, acc.2 ++ [(env.decode acc.1 chunk).2]))
    (d, [])

/-- An engine with a producer attached, two buffered frames and three queued
bytes. -/
def threeQueued : AbstractMp3Streamer Nat Int Int :=
  { AbstractMp3Streamer.new toyEnv 0 with
    device := some { isOpen := true, isReadable := true }
    streaming := true
    bufferedSamples := [8, 9]
    bytesToDecode := [1, 2, 3] }

end AbstractMp3Streamer

namespace AbstractMp3Streamer

/-- A streaming engine with two buffered frames and fresh scratch buffers; its
decoder runs at 44100 Hz. -/
def twoFrames : AbstractMp3Streamer Nat Int Int :=
  { AbstractMp3Streamer.new toyEnv 0 with
    device := some { isOpen := true, isReadable := true }
    streaming := true
    bufferedSamples := [3, 4] }

end AbstractMp3Streamer

namespace NinjamRoomStreamerNode

/-- A session that is buffering with three bytes queued. -/
def bufferingQueued : NinjamRoomStreamerNode Nat Int Int :=
  { openSession with bytesToDecode := [1, 2, 3] }

end NinjamRoomStreamerNode

namespace NinjamRoomStreamerNode

variable {D F P : Type}

/-- One call on a `NinjamRoomStreamerNode` from outside: `setStreamPath`,
`stopCurrentStream`, the render call, or one of the two slots. -/
inductive NodeOp (F : Type) where
  | setStreamPath (streamPath : QString) (reply : QIODevice)
  | stopCurrentStream
  | processReplacing (out : SamplesBuffer F) (sampleRate : Int)
  | on_reply_read (payload : List Byte)
  | on_reply_error (error : Nat)

/-- The object state after one call. -/
def applyOp (env : Collaborators D F P) (s : NinjamRoomStreamerNode D F P) :
    NodeOp F → NinjamRoomStreamerNode D F P
  | NodeOp.setStreamPath streamPath reply => setStreamPath env s streamPath reply
  | NodeOp.stopCurrentStream => stopCurrentStream env s
  | NodeOp.processReplacing out sampleRate => (processReplacing env s out sampleRate).1
  | NodeOp.on_reply_read payload => on_reply_read s payload
  | NodeOp.on_reply_error error => (on_reply_error s error).1

/-- The object state after the calls `ops`, in order. -/
def runOps (env : Collaborators D F P) (s : NinjamRoomStreamerNode D F P)
    (ops : List (NodeOp F)) : NinjamRoomStreamerNode D F P :=
  ops.foldl (applyOp env) s

end NinjamRoomStreamerNode

namespace AbstractMp3Streamer

/-- A streaming engine with three buffered frames of different values and
fresh scratch buffers. -/
def distinctFrames : AbstractMp3Streamer Nat Int Int :=
  { AbstractMp3Streamer.new toyEnv 0 with
    device := some { isOpen := true, isReadable := true }
    streaming := true
    bufferedSamples := [10, 20, 30] }

end AbstractMp3Streamer

namespace NinjamRoomStreamerNode

/-- A session that has left buffering and holds three seconds of audio
(132300 frames at 44100 Hz), nothing queued. -/
def fullSession : NinjamRoomStreamerNode Nat Int Int :=
  { openSession with buffering := false, bufferedSamples := List.replicate 132300 1 }

/-- The session `fullSession` after `setStreamPath` with a new, non-empty
path. -/
def nextSession : NinjamRoomStreamerNode Nat Int Int :=
  setStreamPath toyEnv fullSession (QString.str ['n', 'e', 'w'])
    { isOpen := true, isReadable := true }

end NinjamRoomStreamerNode

end Audio

/-! ## Theorems -/

namespace Audio

theorem chunkLengths_zero : chunkLengths 0 = [] := by
  simp [chunkLengths]

theorem chunkLengths_small (k : Nat) (h0 : 0 < k) (h1 : k ≤ 2048) : chunkLengths k = [k] := by
  unfold chunkLengths
  rcases Nat.lt_or_ge k 2048 with h | h
  · have hd : k / 2048 = 0 := Nat.div_eq_of_lt h
    have hm : k % 2048 = k := Nat.mod_eq_of_lt h
    simp [hd, hm]; omega
  · have hk : k = 2048 := by omega
    subst hk; simp

theorem chunkLengths_step (k : Nat) (h : 2048 < k) :
    chunkLengths k = 2048 :: chunkLengths (k - 2048) := by
  unfold chunkLengths
  have hd : k / 2048 = (k - 2048) / 2048 + 1 := by omega
  have hm : k % 2048 = (k - 2048) % 2048 := by omega
  rw [hd, hm, List.replicate_succ]
  simp

theorem take_drop_split {α : Type} (l : List α) (p c t : Nat) (hc : c ≤ t) :
    (l.drop p).take c ++ (l.drop (p + c)).take (t - c) = (l.drop p).take t := by
  have ht : t = c + (t - c) := by omega
  conv_rhs => rw [ht, List.take_add, List.drop_drop]

namespace AbstractMp3Streamer

variable {D F P : Type}

/-- The loop of `decode`, started with `bytesProcessed` inside the queue and
fuel for the bytes that are left: it stops at `totalBytesToProcess`, the chunks
it hands over are the bytes in between, and their lengths are `chunkLengths`. -/
theorem decodeLoop_spec (env : Collaborators D F P) (bytes : List Byte) (total : Int)
    (htot : total ≤ (bytes.length : Int)) (fuel : Nat) :
    ∀ st : DecodeLoop D F, 0 ≤ st.bytesProcessed → st.bytesProcessed ≤ total →
      (total - st.bytesProcessed).toNat ≤ fuel →
      (decodeLoop env bytes total fuel st).bytesProcessed = total ∧
      (decodeLoop env bytes total fuel st).chunks.flatten =
        st.chunks.flatten ++
          (bytes.drop st.bytesProcessed.toNat).take (total - st.bytesProcessed).toNat ∧
      (decodeLoop env bytes total fuel st).chunks.map List.length =
        st.chunks.map List.length ++ chunkLengths (total - st.bytesProcessed).toNat := by
  induction fuel with
  | zero =>
    intro st h0 h1 hf
    have hp : st.bytesProcessed = total := by omega
    simp [decodeLoop, hp, chunkLengths_zero]
  | succ fuel ih =>
    intro st h0 h1 hf
    unfold decodeLoop
    by_cases hlt : st.bytesProcessed < total
    · simp only [hlt, if_true]
      have hmin : min (total - st.bytesProcessed) MAX_BYTES_PER_DECODING
          = ((min (total - st.bytesProcessed).toNat 2048 : Nat) : Int) := by
        unfold MAX_BYTES_PER_DECODING; omega
      obtain ⟨ih1, ih2, ih3⟩ := ih
        { decoder := (env.decode st.decoder ((bytes.drop st.bytesProcessed.toNat).take
            (min (total - st.bytesProcessed) MAX_BYTES_PER_DECODING).toNat)).1
          bytesProcessed := st.bytesProcessed + min (total - st.bytesProcessed) MAX_BYTES_PER_DECODING
          bufferedSamples := SamplesBuffer.append st.bufferedSamples
            (env.decode st.decoder ((bytes.drop st.bytesProcessed.toNat).take
              (min (total - st.bytesProcessed) MAX_BYTES_PER_DECODING).toNat)).2
          chunks := st.chunks ++ [(bytes.drop st.bytesProcessed.toNat).take
            (min (total - st.bytesProcessed) MAX_BYTES_PER_DECODING).toNat] }
        (by simp only; unfold MAX_BYTES_PER_DECODING; omega)
        (by simp only; unfold MAX_BYTES_PER_DECODING; omega)
        (by simp only; unfold MAX_BYTES_PER_DECODING; omega)
      refine ⟨ih1, ?_, ?_⟩
      · rw [ih2]
        simp only [List.flatten_append, List.flatten_cons, List.flatten_nil, List.append_nil,
          List.append_assoc]
        congr 1
        have e1 : (st.bytesProcessed + min (total - st.bytesProcessed) MAX_BYTES_PER_DECODING).toNat
            = st.bytesProcessed.toNat + min (total - st.bytesProcessed).toNat 2048 := by
          unfold MAX_BYTES_PER_DECODING; omega
        have e2 : (total - (st.bytesProcessed + min (total - st.bytesProcessed) MAX_BYTES_PER_DECODING)).toNat
            = (total - st.bytesProcessed).toNat - min (total - st.bytesProcessed).toNat 2048 := by
          unfold MAX_BYTES_PER_DECODING; omega
        have e3 : (min (total - st.bytesProcessed) MAX_BYTES_PER_DECODING).toNat
            = min (total - st.bytesProcessed).toNat 2048 := by
          unfold MAX_BYTES_PER_DECODING; omega
        rw [e1, e2, e3]
        exact take_drop_split bytes _ _ _ (Nat.min_le_left _ _)
      · rw [ih3]
        simp only [List.map_append, List.map_cons, List.map_nil, List.append_assoc]
        congr 1
        have e2 : (total - (st.bytesProcessed + min (total - st.bytesProcessed) MAX_BYTES_PER_DECODING)).toNat
            = (total - st.bytesProcessed).toNat - min (total - st.bytesProcessed).toNat 2048 := by
          unfold MAX_BYTES_PER_DECODING; omega
        have e3 : (min (total - st.bytesProcessed) MAX_BYTES_PER_DECODING).toNat
            = min (total - st.bytesProcessed).toNat 2048 := by
          unfold MAX_BYTES_PER_DECODING; omega
        rw [e2, e3, List.length_take, List.length_drop]
        have hlen : min (min (total - st.bytesProcessed).toNat 2048) (bytes.length - st.bytesProcessed.toNat)
            = min (total - st.bytesProcessed).toNat 2048 := by omega
        rw [hlen]
        rcases Nat.lt_or_ge 2048 (total - st.bytesProcessed).toNat with hbig | hsmall
        · rw [chunkLengths_step _ hbig]
          have : min (total - st.bytesProcessed).toNat 2048 = 2048 := by omega
          simp [this]
        · have hpos : 0 < (total - st.bytesProcessed).toNat := by omega
          rw [chunkLengths_small _ hpos hsmall]
          have : min (total - st.bytesProcessed).toNat 2048 = (total - st.bytesProcessed).toNat := by omega
          simp [this, chunkLengths_zero]
    · have hp : st.bytesProcessed = total := by omega
      simp [hp, chunkLengths_zero]

theorem consumed_of_lt (maxBytesToDecode n : Nat) (h : maxBytesToDecode < 2 ^ 31) :
    consumed maxBytesToDecode n = min maxBytesToDecode n := by
  unfold consumed toInt
  have h1 : maxBytesToDecode % 2 ^ 32 = maxBytesToDecode := Nat.mod_eq_of_lt (by omega)
  rw [h1, if_pos h]
  omega

theorem consumed_le (maxBytesToDecode n : Nat) : consumed maxBytesToDecode n ≤ n := by
  unfold consumed; omega

theorem decodeTrace_none (env : Collaborators D F P) (s : AbstractMp3Streamer D F P)
    (maxBytesToDecode : Nat) (hdev : s.device = none) :
    decodeTrace env s maxBytesToDecode = (s, []) := by
  unfold decodeTrace; rw [hdev]

/-- What one call of `decode` does to the byte queue when a producer is
attached, for every argument: the chunks are the first `consumed` bytes, cut
as `chunkLengths` says, and the rest of the queue stays. -/
theorem decodeTrace_spec (env : Collaborators D F P) (s : AbstractMp3Streamer D F P)
    (d : QIODevice) (maxBytesToDecode : Nat) (hdev : s.device = some d) :
    (decodeTrace env s maxBytesToDecode).2.flatten
        = s.bytesToDecode.take (consumed maxBytesToDecode s.bytesToDecode.length) ∧
      (decodeTrace env s maxBytesToDecode).2.map List.length
        = chunkLengths (consumed maxBytesToDecode s.bytesToDecode.length) ∧
      (decodeTrace env s maxBytesToDecode).1.bytesToDecode
        = s.bytesToDecode.drop (consumed maxBytesToDecode s.bytesToDecode.length) := by
  unfold decodeTrace consumed
  rw [hdev]
  simp only
  by_cases hpos : min (toInt maxBytesToDecode) (s.bytesToDecode.length : Int) > 0
  · rw [if_pos hpos]
    obtain ⟨h1, h2, h3⟩ := decodeLoop_spec env s.bytesToDecode
      (min (toInt maxBytesToDecode) (s.bytesToDecode.length : Int)) (by omega)
      (min (toInt maxBytesToDecode) (s.bytesToDecode.length : Int)).toNat
      { decoder := s.decoder, bytesProcessed := 0, bufferedSamples := s.bufferedSamples, chunks := [] }
      (by simp) (by simp only; omega) (by simp)
    simp only [h1, h2, h3]
    refine ⟨by simp, by simp, ?_⟩
    unfold right
    congr 1
    omega
  · rw [if_neg hpos]
    have hz : (min (toInt maxBytesToDecode) (s.bytesToDecode.length : Int)).toNat = 0 := by omega
    simp [hz, chunkLengths_zero]

theorem decodeTrace_device (env : Collaborators D F P) (s : AbstractMp3Streamer D F P)
    (maxBytesToDecode : Nat) : (decodeTrace env s maxBytesToDecode).1.device = s.device := by
  unfold decodeTrace
  split
  · rfl
  · simp only; split <;> rfl

theorem decodeTrace_streaming (env : Collaborators D F P) (s : AbstractMp3Streamer D F P)
    (maxBytesToDecode : Nat) : (decodeTrace env s maxBytesToDecode).1.streaming = s.streaming := by
  unfold decodeTrace
  split
  · rfl
  · simp only; split <;> rfl

theorem chunkLengths_mem (k x : Nat) (h : x ∈ chunkLengths k) : 0 < x ∧ x ≤ 2048 := by
  unfold chunkLengths at h
  rw [List.mem_append] at h
  rcases h with h | h
  · have := List.eq_of_mem_replicate h
    omega
  · by_cases hk : k % 2048 = 0
    · simp [hk] at h
    · simp [hk] at h
      omega

theorem chunkLengths_dropLast (k x : Nat) (h : x ∈ (chunkLengths k).dropLast) : x = 2048 := by
  unfold chunkLengths at h
  by_cases hk : k % 2048 = 0
  · simp only [hk, if_true, List.append_nil] at h
    exact List.eq_of_mem_replicate (List.mem_of_mem_dropLast h)
  · simp only [hk, if_false] at h
    rw [List.dropLast_concat] at h
    exact List.eq_of_mem_replicate h

/-- C1: with a producer attached and `maxBytesToDecode < 2 ^ 31`, one call of
`decode` hands the decoder exactly the first `min maxBytesToDecode n` queued
bytes, in order, in chunks that are non-empty and at most
`MAX_BYTES_PER_DECODING` long, every chunk but the last exactly that long
(their lengths are `chunkLengths`), and the queue afterwards is the remaining
bytes in their order. -/
theorem decode_hands_first_bytes_in_chunks (env : Collaborators D F P)
    (s : AbstractMp3Streamer D F P) (d : QIODevice) (maxBytesToDecode : Nat)
    (hdev : s.device = some d) (hmax : maxBytesToDecode < 2 ^ 31) :
    (decodeTrace env s maxBytesToDecode).2.flatten
        = s.bytesToDecode.take (min maxBytesToDecode s.bytesToDecode.length) ∧
      (∀ c ∈ (decodeTrace env s maxBytesToDecode).2,
        0 < c.length ∧ (c.length : Int) ≤ MAX_BYTES_PER_DECODING) ∧
      (∀ c ∈ (decodeTrace env s maxBytesToDecode).2.dropLast,
        (c.length : Int) = MAX_BYTES_PER_DECODING) ∧
      (decodeTrace env s maxBytesToDecode).2.map List.length
        = chunkLengths (min maxBytesToDecode s.bytesToDecode.length) ∧
      (decode env s maxBytesToDecode).bytesToDecode
        = s.bytesToDecode.drop (min maxBytesToDecode s.bytesToDecode.length) := by
  obtain ⟨h1, h2, h3⟩ := decodeTrace_spec env s d maxBytesToDecode hdev
  rw [consumed_of_lt _ _ hmax] at h1 h2 h3
  refine ⟨h1, ?_, ?_, h2, h3⟩
  · intro c hc
    have hm : c.length ∈ chunkLengths (min maxBytesToDecode s.bytesToDecode.length) := by
      rw [← h2]; exact List.mem_map_of_mem _ hc
    have := chunkLengths_mem _ _ hm
    unfold MAX_BYTES_PER_DECODING
    omega
  · intro c hc
    have hm : c.length ∈ (chunkLengths (min maxBytesToDecode s.bytesToDecode.length)).dropLast := by
      rw [← h2, ← List.map_dropLast]; exact List.mem_map_of_mem _ hc
    have := chunkLengths_dropLast _ _ hm
    unfold MAX_BYTES_PER_DECODING
    omega

/-- C1, witness: 10000 queued bytes and `decode(10000)` give chunks of 2048,
2048, 2048, 2048 and 1808 bytes and an empty queue. -/
theorem decode_hands_first_bytes_in_chunks_witness :
    scenarioA.device = some { isOpen := true, isReadable := true } ∧ 10000 < 2 ^ 31 ∧
      (decodeTrace toyEnv scenarioA 10000).2.map List.length = [2048, 2048, 2048, 2048, 1808] ∧
      (decode toyEnv scenarioA 10000).bytesToDecode = [] := by
  have hlen : scenarioA.bytesToDecode.length = 10000 := by
    show (List.replicate 6000 1 ++ List.replicate 4000 2).length = 10000
    rw [List.length_append, List.length_replicate, List.length_replicate]
  obtain ⟨_, _, _, h4, h5⟩ := decode_hands_first_bytes_in_chunks toyEnv scenarioA
    { isOpen := true, isReadable := true } 10000 rfl (by norm_num)
  rw [hlen] at h4 h5
  refine ⟨rfl, by norm_num, ?_, ?_⟩
  · rw [h4]; decide
  · rw [h5]; exact List.drop_eq_nil_of_le (by rw [hlen]; decide)

theorem decodeRepeat_bytes (env : Collaborators D F P) (c : Nat) (hc : c < 2 ^ 31) (calls : Nat) :
    ∀ (s : AbstractMp3Streamer D F P) (d : QIODevice), s.device = some d →
      (decodeRepeat env c calls s).bytesToDecode = s.bytesToDecode.drop (calls * c) := by
  induction calls with
  | zero => intro s d _; simp [decodeRepeat]
  | succ calls ih =>
    intro s d hdev
    have hstep := (decodeTrace_spec env s d c hdev).2.2
    rw [consumed_of_lt _ _ hc] at hstep
    have hdev1 : (decode env s c).device = some d := by
      unfold decode; rw [decodeTrace_device]; exact hdev
    show (decodeRepeat env c calls (decode env s c)).bytesToDecode = _
    rw [ih (decode env s c) d hdev1]
    unfold decode
    rw [hstep, List.drop_drop]
    rcases Nat.le_total c s.bytesToDecode.length with h | h
    · rw [Nat.min_eq_left h]
      congr 1
      rw [Nat.succ_mul]; omega
    · rw [Nat.min_eq_right h]
      rw [List.drop_eq_nil_of_le (by omega), List.drop_eq_nil_of_le]
      rw [Nat.succ_mul]; omega

/-- C2 (amended): with a producer attached, nothing pushed in between and
`0 < c < 2 ^ 31`, repeated `decode(c)` empties a queue of `n` bytes in exactly
`ceil (n / c)` calls; one call takes `min c n` bytes, in several chunks when
`c` exceeds `MAX_BYTES_PER_DECODING`. -/
theorem decode_repeat_drains_in_ceil (env : Collaborators D F P) (s : AbstractMp3Streamer D F P)
    (d : QIODevice) (c : Nat) (hdev : s.device = some d) (hpos : 0 < c) (hc : c < 2 ^ 31) :
    drainsInExactly env c s ((s.bytesToDecode.length + c - 1) / c) := by
  constructor
  · rw [decodeRepeat_bytes env c hc _ s d hdev]
    apply List.drop_eq_nil_of_le
    have h1 := Nat.div_add_mod (s.bytesToDecode.length + c - 1) c
    have h2 := Nat.mod_lt (s.bytesToDecode.length + c - 1) hpos
    rw [Nat.mul_comm]
    omega
  · intro j hj
    rw [decodeRepeat_bytes env c hc _ s d hdev]
    intro hnil
    rw [List.drop_eq_nil_iff] at hnil
    have h1 : (j + 1) * c ≤ s.bytesToDecode.length + c - 1 :=
      (Nat.le_div_iff_mul_le hpos).mp hj
    rw [Nat.succ_mul] at h1
    omega

/-- C2, witness: 10000 queued bytes are drained by `decode(4096)` in exactly
3 calls. -/
theorem decode_repeat_drains_in_ceil_witness :
    scenarioA.device = some { isOpen := true, isReadable := true } ∧ 0 < 4096 ∧ 4096 < 2 ^ 31 ∧
      drainsInExactly toyEnv 4096 scenarioA 3 := by
  have hlen : scenarioA.bytesToDecode.length = 10000 := by
    show (List.replicate 6000 1 ++ List.replicate 4000 2).length = 10000
    rw [List.length_append, List.length_replicate, List.length_replicate]
  have h := decode_repeat_drains_in_ceil toyEnv scenarioA { isOpen := true, isReadable := true }
    4096 rfl (by norm_num) (by norm_num)
  rw [hlen] at h
  exact ⟨rfl, by norm_num, by norm_num, h⟩

/-- C2, counterexample: for 4096 queued bytes and `decode(4096)` the
specification's count is 2, but the queue is empty after one call. -/
theorem decode_repeat_claimed_count_fails :
    claimedDrainCalls twoChunks.bytesToDecode.length 4096 = 2 ∧
      ¬ drainsInExactly toyEnv 4096 twoChunks (claimedDrainCalls twoChunks.bytesToDecode.length 4096) := by
  have hlen : twoChunks.bytesToDecode.length = 4096 := by
    show (List.replicate 4096 7).length = 4096
    rw [List.length_replicate]
  have hc : claimedDrainCalls twoChunks.bytesToDecode.length 4096 = 2 := by
    rw [hlen]; decide
  refine ⟨hc, ?_⟩
  rw [hc]
  intro h
  apply h.2 1 (by decide)
  rw [decodeRepeat_bytes toyEnv 4096 (by norm_num) 1 twoChunks { isOpen := true, isReadable := true } rfl]
  exact List.drop_eq_nil_of_le (by rw [hlen])

end AbstractMp3Streamer

namespace NinjamRoomStreamerNode

variable {D F P : Type}

theorem decodeTrace_conserves (env : Collaborators D F P) (s : AbstractMp3Streamer D F P)
    (maxBytesToDecode : Nat) :
    (AbstractMp3Streamer.decodeTrace env s maxBytesToDecode).2.flatten
        ++ (AbstractMp3Streamer.decodeTrace env s maxBytesToDecode).1.bytesToDecode
      = s.bytesToDecode := by
  cases hdev : s.device with
  | none => rw [AbstractMp3Streamer.decodeTrace_none env s _ hdev]; simp
  | some d =>
    obtain ⟨h1, _, h3⟩ := AbstractMp3Streamer.decodeTrace_spec env s d maxBytesToDecode hdev
    rw [h1, h3, List.take_append_drop]

theorem on_reply_read_open (s : NinjamRoomStreamerNode D F P) (d : QIODevice)
    (payload : List Byte) (hdev : s.device = some d) (hopen : d.isOpen = true)
    (hread : d.isReadable = true) :
    (on_reply_read s payload).bytesToDecode = s.bytesToDecode ++ payload ∧
      (on_reply_read s payload).device = some d := by
  unfold on_reply_read
  split
  · rename_i h; rw [hdev] at h; cases h
  · rename_i dev h
    rw [hdev] at h
    cases h
    simp [hopen, hread, hdev]

theorem runSession_push (env : Collaborators D F P) (payload : List Byte) (ops : List SessionOp)
    (acc : NinjamRoomStreamerNode D F P × List (List Byte)) :
    runSession env (SessionOp.push payload :: ops) acc
      = runSession env ops (on_reply_read acc.1 payload, acc.2) := rfl

theorem runSession_decode (env : Collaborators D F P) (maxBytesToDecode : Nat)
    (ops : List SessionOp) (acc : NinjamRoomStreamerNode D F P × List (List Byte)) :
    runSession env (SessionOp.decode maxBytesToDecode :: ops) acc
      = runSession env ops
        ({ acc.1 with toAbstractMp3Streamer :=
            (AbstractMp3Streamer.decodeTrace env acc.1.toAbstractMp3Streamer maxBytesToDecode).1 },
          acc.2 ++ (AbstractMp3Streamer.decodeTrace env acc.1.toAbstractMp3Streamer maxBytesToDecode).2) :=
  rfl

theorem runSession_conserves (env : Collaborators D F P) (d : QIODevice)
    (hopen : d.isOpen = true) (hread : d.isReadable = true) (ops : List SessionOp) :
    ∀ acc : NinjamRoomStreamerNode D F P × List (List Byte), acc.1.device = some d →
      (runSession env ops acc).2.flatten ++ (runSession env ops acc).1.bytesToDecode
        = acc.2.flatten ++ acc.1.bytesToDecode ++ pushedBytes ops := by
  induction ops with
  | nil => intro acc _; simp [runSession, pushedBytes]
  | cons op ops ih =>
    intro acc hdev
    cases op with
    | push payload =>
      obtain ⟨hq, hd⟩ := on_reply_read_open acc.1 d payload hdev hopen hread
      rw [runSession_push, ih (on_reply_read acc.1 payload, acc.2) hd]
      simp only [hq, pushedBytes, List.append_assoc]
    | decode maxBytesToDecode =>
      have hc := decodeTrace_conserves env acc.1.toAbstractMp3Streamer maxBytesToDecode
      have hd := AbstractMp3Streamer.decodeTrace_device env acc.1.toAbstractMp3Streamer maxBytesToDecode
      rw [runSession_decode, ih _ (by simpa [hd] using hdev)]
      simp only [pushedBytes, List.flatten_append, List.append_assoc]
      rw [← List.append_assoc
        (AbstractMp3Streamer.decodeTrace env acc.1.toAbstractMp3Streamer maxBytesToDecode).2.flatten, hc]

/-- C3: within a session whose producer is open and readable, after any
finite interleaving of pushes (`on_reply_read`) and `decode` calls, the chunks
handed to the decoder followed by the byte queue are the bytes that were queued
at the start followed by all pushed payloads in arrival order. -/
theorem session_bytes_conserved_in_order (env : Collaborators D F P)
    (s : NinjamRoomStreamerNode D F P) (d : QIODevice) (ops : List SessionOp)
    (hdev : s.device = some d) (hopen : d.isOpen = true) (hread : d.isReadable = true) :
    (runSession env ops (s, [])).2.flatten ++ (runSession env ops (s, [])).1.bytesToDecode
      = s.bytesToDecode ++ pushedBytes ops := by
  have h := runSession_conserves env d hopen hread ops (s, []) hdev
  simpa using h

/-- C3, witness: pushes of 3 and 2 bytes around two `decode` calls on a
freshly opened session. -/
theorem session_bytes_conserved_in_order_witness :
    openSession.device = some { isOpen := true, isReadable := true } ∧
      (runSession toyEnv
          [SessionOp.push [1, 2, 3], SessionOp.decode 2, SessionOp.push [4, 5], SessionOp.decode 4096]
          (openSession, [])).2.flatten
        ++ (runSession toyEnv
          [SessionOp.push [1, 2, 3], SessionOp.decode 2, SessionOp.push [4, 5], SessionOp.decode 4096]
          (openSession, [])).1.bytesToDecode
        = [1, 2, 3, 4, 5] :=
  ⟨rfl, session_bytes_conserved_in_order toyEnv openSession { isOpen := true, isReadable := true }
    [SessionOp.push [1, 2, 3], SessionOp.decode 2, SessionOp.push [4, 5], SessionOp.decode 4096]
    rfl rfl rfl⟩

theorem decode_buffering (env : Collaborators D F P) (s : NinjamRoomStreamerNode D F P)
    (maxBytesToDecode : Nat) : (decode env s maxBytesToDecode).buffering = s.buffering := rfl

theorem decode_bufferTime (env : Collaborators D F P) (s : NinjamRoomStreamerNode D F P)
    (maxBytesToDecode : Nat) : (decode env s maxBytesToDecode).bufferTime = s.bufferTime := rfl

theorem processReplacingDecode_buffering (env : Collaborators D F P)
    (s : NinjamRoomStreamerNode D F P) (out : SamplesBuffer F) (sampleRate : Int) :
    (processReplacingDecode env s out sampleRate).buffering = s.buffering := by
  unfold processReplacingDecode
  simp only [decode_buffering]
  split
  · split <;> rfl
  · rfl

/-- C4: a render call entered while buffering decodes 4096 bytes at most; with
`b` the buffered frame count after that and `T = bufferTime * sample rate`:
if `b < T` the engine keeps buffering, the output is unchanged, the sample
buffer keeps all its frames and the peak meter is zeroed; if `b ≥ T` buffering
ends in this call and the result is the base render of the decoded state. -/
theorem processReplacing_prebuffer_gate (env : Collaborators D F P)
    (s : NinjamRoomStreamerNode D F P) (out : SamplesBuffer F) (sampleRate : Int)
    (hbuf : s.buffering = true) :
    processReplacingDecode env s out sampleRate = decode env s 4096 ∧
      (SamplesBuffer.getFrameLenght (decode env s 4096).bufferedSamples
          < s.bufferTime * env.getSampleRate (decode env s 4096).decoder →
        (processReplacing env s out sampleRate).1.buffering = true ∧
        (processReplacing env s out sampleRate).2 = out ∧
        (processReplacing env s out sampleRate).1.bufferedSamples
          = (decode env s 4096).bufferedSamples ∧
        (processReplacing env s out sampleRate).1.lastPeak = env.peakZero) ∧
      (SamplesBuffer.getFrameLenght (decode env s 4096).bufferedSamples
          ≥ s.bufferTime * env.getSampleRate (decode env s 4096).decoder →
        (processReplacing env s out sampleRate).1.buffering = false ∧
        processReplacing env s out sampleRate
          = ({ decode env s 4096 with
                buffering := false
                toAbstractMp3Streamer :=
                  (AbstractMp3Streamer.processReplacingWith env
                    (needResamplingFor env { decode env s 4096 with buffering := false } sampleRate)
                    (decode env s 4096).toAbstractMp3Streamer out sampleRate).1 },
              (AbstractMp3Streamer.processReplacingWith env
                (needResamplingFor env { decode env s 4096 with buffering := false } sampleRate)
                (decode env s 4096).toAbstractMp3Streamer out sampleRate).2)) := by
  have hd : processReplacingDecode env s out sampleRate = decode env s 4096 := by
    unfold processReplacingDecode
    simp [hbuf]
  refine ⟨hd, ?_, ?_⟩
  · intro hlt
    unfold processReplacing
    rw [hd]
    have hnot : ¬ (SamplesBuffer.getFrameLenght (decode env s 4096).bufferedSamples
        ≥ (decode env s 4096).bufferTime * env.getSampleRate (decode env s 4096).decoder) := by
      rw [decode_bufferTime]; omega
    simp [hnot, decode_buffering, hbuf]
  · intro hge
    unfold processReplacing
    rw [hd]
    have hyes : SamplesBuffer.getFrameLenght (decode env s 4096).bufferedSamples
        ≥ (decode env s 4096).bufferTime * env.getSampleRate (decode env s 4096).decoder := by
      rw [decode_bufferTime]; exact hge
    simp [hyes, decode_buffering, hbuf]

theorem decode_empty_queue (env : Collaborators D F P) (s : NinjamRoomStreamerNode D F P)
    (maxBytesToDecode : Nat) (hq : s.bytesToDecode = []) : decode env s maxBytesToDecode = s := by
  unfold decode AbstractMp3Streamer.decode AbstractMp3Streamer.decodeTrace
  cases hdev : s.device with
  | none => rfl
  | some d =>
    have hnot : ¬ (min (toInt maxBytesToDecode) ((s.bytesToDecode.length : Nat) : Int) > 0) := by
      rw [hq]; simp
    simp only [hnot, if_false]

/-- C4, witness: with `bufferTime = 3` at 44100 Hz, 132299 buffered frames
keep the engine buffering and 132300 end the buffering. -/
theorem processReplacing_prebuffer_gate_witness :
    ((bufferingWith 132299).buffering = true ∧
        (processReplacing toyEnv (bufferingWith 132299) [0, 0] 44100).1.buffering = true ∧
        (processReplacing toyEnv (bufferingWith 132299) [0, 0] 44100).2 = [0, 0]) ∧
      ((bufferingWith 132300).buffering = true ∧
        (processReplacing toyEnv (bufferingWith 132300) [0, 0] 44100).1.buffering = false) := by
  have hd : ∀ n, decode toyEnv (bufferingWith n) 4096 = bufferingWith n :=
    fun n => decode_empty_queue toyEnv (bufferingWith n) 4096 rfl
  have hlen : ∀ n, SamplesBuffer.getFrameLenght (bufferingWith n).bufferedSamples = (n : Int) := by
    intro n
    show ((List.replicate n (1 : Int)).length : Int) = n
    rw [List.length_replicate]
  have hT : ∀ n, (bufferingWith n).bufferTime * toyEnv.getSampleRate (bufferingWith n).decoder
      = 132300 := fun _ => rfl
  constructor
  · obtain ⟨_, hstay, _⟩ :=
      processReplacing_prebuffer_gate toyEnv (bufferingWith 132299) [0, 0] 44100 rfl
    rw [hd, hlen, hT] at hstay
    obtain ⟨h1, h2, _, _⟩ := hstay (by norm_num)
    exact ⟨rfl, h1, h2⟩
  · obtain ⟨_, _, hgo⟩ :=
      processReplacing_prebuffer_gate toyEnv (bufferingWith 132300) [0, 0] 44100 rfl
    rw [hd, hlen, hT] at hgo
    exact ⟨rfl, (hgo (by norm_num)).1⟩

/-- C5: once `buffering` is false, the render call, `on_reply_read`,
`on_reply_error`, `decode` and `stopCurrentStream` all leave it false; and
`initialize` sets it to true, for every path. -/
theorem buffering_false_is_kept (env : Collaborators D F P) (s : NinjamRoomStreamerNode D F P)
    (hbuf : s.buffering = false) :
    (∀ (out : SamplesBuffer F) (sampleRate : Int),
        (processReplacing env s out sampleRate).1.buffering = false) ∧
      (∀ payload : List Byte, (on_reply_read s payload).buffering = false) ∧
      (∀ error : Nat, (on_reply_error s error).1.buffering = false) ∧
      (∀ maxBytesToDecode : Nat, (decode env s maxBytesToDecode).buffering = false) ∧
      (stopCurrentStream env s).buffering = false ∧
      (∀ (t : NinjamRoomStreamerNode D F P) (streamPath : QString) (reply : QIODevice),
        (initializeStream env t streamPath reply).buffering = true) := by
  refine ⟨?_, ?_, ?_, ?_, ?_, ?_⟩
  · intro out sampleRate
    unfold processReplacing
    simp [processReplacingDecode_buffering, hbuf]
  · intro payload
    unfold on_reply_read
    split
    · exact hbuf
    · split
      · exact hbuf
      · exact hbuf
  · intro _; exact hbuf
  · intro _; exact hbuf
  · exact hbuf
  · intro t streamPath reply
    unfold initializeStream
    simp only
    split <;> rfl

/-- C5, witness: a session that has left buffering keeps `buffering = false`
through a render call. -/
theorem buffering_false_is_kept_witness :
    streamingSession.buffering = false ∧
      (processReplacing toyEnv streamingSession [0, 0] 44100).1.buffering = false :=
  ⟨rfl, (buffering_false_is_kept toyEnv streamingSession rfl).1 [0, 0] 44100⟩

end NinjamRoomStreamerNode

namespace SamplesBuffer

variable {F : Type}

theorem setFrameLenght_length (zeroFrame : F) (b : SamplesBuffer F) (n : Int) :
    (setFrameLenght zeroFrame b n).length = n.toNat := by
  unfold setFrameLenght
  rw [List.length_append, List.length_take, List.length_replicate]
  omega

theorem set_of_le (dst src : SamplesBuffer F) (h : dst.length ≤ src.length) :
    set dst src = src.take dst.length := by
  unfold set
  rw [List.drop_eq_nil_of_le h, List.append_nil]

end SamplesBuffer

namespace AbstractMp3Streamer

variable {D F P : Type}

/-- The base render without resampling on a streaming engine with `b > 0`
buffered frames and an output of `m > 0` frames: the scratch input is the
first `min m b` buffered frames and these are discarded from the buffer. -/
theorem processReplacingWith_false (env : Collaborators D F P) (s : AbstractMp3Streamer D F P)
    (out : SamplesBuffer F) (targetSampleRate : Int) (hstr : s.streaming = true)
    (hb : 0 < s.bufferedSamples.length) (hm : 0 < out.length) :
    (processReplacingWith env false s out targetSampleRate).1.bufferedSamples
        = s.bufferedSamples.drop (min out.length s.bufferedSamples.length) ∧
      (processReplacingWith env false s out targetSampleRate).1.internalInputBuffer
        = s.bufferedSamples.take (min out.length s.bufferedSamples.length) ∧
      (processReplacingWith env false s out targetSampleRate).1.streaming = true ∧
      (processReplacingWith env false s out targetSampleRate).1.decoder = s.decoder := by
  have hk : (min (SamplesBuffer.getFrameLenght out) (SamplesBuffer.getFrameLenght s.bufferedSamples)).toNat
      = min out.length s.bufferedSamples.length := by
    simp only [SamplesBuffer.getFrameLenght]; omega
  have hpos : ¬ (min (SamplesBuffer.getFrameLenght out) (SamplesBuffer.getFrameLenght s.bufferedSamples) ≤ 0) := by
    simp only [SamplesBuffer.getFrameLenght]; omega
  have hne : SamplesBuffer.isEmpty s.bufferedSamples = false := by
    simp only [SamplesBuffer.isEmpty, SamplesBuffer.getFrameLenght, decide_eq_false_iff_not]
    omega
  unfold processReplacingWith
  simp only [hne, hstr, getSamplesToRender, Bool.false_eq_true, if_false, hpos, Bool.not_true,
    Bool.or_self]
  refine ⟨?_, ?_⟩
  · simp only [SamplesBuffer.discardFirstSamples, hk]
  · rw [SamplesBuffer.set_of_le _ _ (by rw [SamplesBuffer.setFrameLenght_length, hk]; omega)]
    rw [SamplesBuffer.setFrameLenght_length, hk]
    simp

theorem needResamplingFor_same_rate (env : Collaborators D F P) (s : AbstractMp3Streamer D F P) :
    needResamplingFor env s (getSampleRate env s) = false := by
  unfold needResamplingFor
  simp

theorem processReplacing_same_rate (env : Collaborators D F P) (s : AbstractMp3Streamer D F P)
    (out : SamplesBuffer F) (targetSampleRate : Int)
    (hrate : targetSampleRate = getSampleRate env s) :
    processReplacing env s out targetSampleRate
      = processReplacingWith env false s out targetSampleRate := by
  unfold processReplacing
  rw [hrate, needResamplingFor_same_rate]

/-- The sample-buffer side of the base render without resampling, on a streaming engine with
`b > 0` buffered frames and an output of `m > 0` frames, consumes exactly
`k = min m b` frames: the sample buffer afterwards has `b - k` frames, they
are the old frames `k, k+1, ..., b-1` in order, the frames rendered are the old
frames `0..k-1`, and a following render call takes its frames from old frame
`k` on. -/
theorem render_consumes_front_frames (env : Collaborators D F P) (s : AbstractMp3Streamer D F P)
    (out : SamplesBuffer F) (targetSampleRate : Int) (hstr : s.streaming = true)
    (hb : 0 < s.bufferedSamples.length) (hm : 0 < out.length)
    (hrate : targetSampleRate = getSampleRate env s) :
    (processReplacing env s out targetSampleRate).1.bufferedSamples
        = s.bufferedSamples.drop (min out.length s.bufferedSamples.length) ∧
      (processReplacing env s out targetSampleRate).1.bufferedSamples.length
        = s.bufferedSamples.length - min out.length s.bufferedSamples.length ∧
      (∀ i : Nat, (processReplacing env s out targetSampleRate).1.bufferedSamples[i]?
        = s.bufferedSamples[min out.length s.bufferedSamples.length + i]?) ∧
      (processReplacing env s out targetSampleRate).1.internalInputBuffer
        = s.bufferedSamples.take (min out.length s.bufferedSamples.length) ∧
      (∀ out2 : SamplesBuffer F, 0 < out2.length → out.length < s.bufferedSamples.length →
        (processReplacing env (processReplacing env s out targetSampleRate).1 out2
            targetSampleRate).1.internalInputBuffer
          = (s.bufferedSamples.drop (min out.length s.bufferedSamples.length)).take
              (min out2.length (s.bufferedSamples.length - min out.length s.bufferedSamples.length))) := by
  have hfirst := processReplacing_same_rate env s out targetSampleRate hrate
  obtain ⟨h1, h2, h3, h4⟩ := processReplacingWith_false env s out targetSampleRate hstr hb hm
  rw [← hfirst] at h1 h2 h3 h4
  refine ⟨h1, by rw [h1, List.length_drop], ?_, h2, ?_⟩
  · intro i
    rw [h1, List.getElem?_drop]
  · intro out2 hm2 hlt
    have hrate2 : targetSampleRate
        = getSampleRate env (processReplacing env s out targetSampleRate).1 :=
      hrate.trans (congrArg env.getSampleRate h4.symm)
    have hb2 : 0 < (processReplacing env s out targetSampleRate).1.bufferedSamples.length := by
      rw [h1, List.length_drop]; omega
    rw [processReplacing_same_rate env _ out2 targetSampleRate hrate2]
    obtain ⟨_, g2, _, _⟩ := processReplacingWith_false env
      (processReplacing env s out targetSampleRate).1 out2 targetSampleRate h3 hb2 hm2
    rw [g2, h1, List.length_drop]

/-- An instance: three buffered frames and an output of two frames leave the
third frame, which the next render call takes. -/
theorem render_consumes_front_frames_witness :
    threeFrames.streaming = true ∧ 0 < threeFrames.bufferedSamples.length ∧
      0 < ([0, 0] : SamplesBuffer Int).length ∧ (44100 : Int) = getSampleRate toyEnv threeFrames ∧
      (processReplacing toyEnv threeFrames [0, 0] 44100).1.bufferedSamples = [1] :=
  ⟨rfl, by decide, by decide, rfl,
    (render_consumes_front_frames toyEnv threeFrames [0, 0] 44100 rfl (by decide) (by decide) rfl).1⟩

/-- C7 (code bug): `threeFrames` rendered into two silent frames leaves one
buffered frame; the next render into two silent frames has `outLength = 1`,
yet output frame 1 becomes 5, the stale second frame of the scratch output
buffer, instead of keeping the caller's 0: the scratch output buffer is sized
with the caller's frame count, not `outLength`, and is added whole. -/
theorem render_underrun_adds_stale_frames :
    (processReplacing toyEnv threeFrames [0, 0] 44100).2 = [5, 5] ∧
      (processReplacing toyEnv threeFrames [0, 0] 44100).1.bufferedSamples = [1] ∧
      (processReplacing toyEnv (processReplacing toyEnv threeFrames [0, 0] 44100).1
        [0, 0] 44100).2 = [1, 5] := by
  decide

/-- C9: `stopCurrentStream` is idempotent on the whole object state (streaming
flag, producer, sample buffer, byte queue, fade processor, and the rest). -/
theorem stopCurrentStream_idempotent (env : Collaborators D F P) (s : AbstractMp3Streamer D F P) :
    stopCurrentStream env (stopCurrentStream env s) = stopCurrentStream env s := by
  unfold stopCurrentStream
  cases hdev : s.device with
  | none => simp [hdev, FaderProcessor.reset]
  | some d => simp [FaderProcessor.reset]

/-- C10, counterexample: on a streaming engine without a producer
`stopCurrentStream` leaves the streaming flag set, and the following base
render adds the buffered frame to the output. -/
theorem stopCurrentStream_keeps_streaming_without_producer :
    ¬ ((stopCurrentStream toyEnv streamingWithoutProducer).streaming = false ∧
        (stopCurrentStream toyEnv streamingWithoutProducer).device = none ∧
        (stopCurrentStream toyEnv streamingWithoutProducer).bytesToDecode = [] ∧
        (processReplacing toyEnv (stopCurrentStream toyEnv streamingWithoutProducer) [0] 44100).2
          = [0]) := by
  decide

/-- C10 (amended): on every engine state in which streaming implies an
attached producer, after `stopCurrentStream` the engine is not streaming, has
no producer and an empty byte queue, and a following base render (whatever the
resampling decision, rate and output) changes neither the state nor the
caller's output. -/
theorem stopCurrentStream_postcondition (env : Collaborators D F P)
    (s : AbstractMp3Streamer D F P) (hinv : s.streaming = true → s.device ≠ none) :
    (stopCurrentStream env s).streaming = false ∧
      (stopCurrentStream env s).device = none ∧
      (stopCurrentStream env s).bytesToDecode = [] ∧
      (∀ (needResampling : Bool) (out : SamplesBuffer F) (targetSampleRate : Int),
        processReplacingWith env needResampling (stopCurrentStream env s) out targetSampleRate
          = (stopCurrentStream env s, out)) := by
  have hs : (stopCurrentStream env s).streaming = false := by
    unfold stopCurrentStream
    cases hdev : s.device with
    | none =>
      cases hstr : s.streaming with
      | false => simp [hstr]
      | true => exact absurd hdev (hinv hstr)
    | some d => simp
  refine ⟨hs, ?_, ?_, ?_⟩
  · unfold stopCurrentStream
    cases hdev : s.device <;> simp [hdev]
  · unfold stopCurrentStream
    cases hdev : s.device <;> simp
  · intro needResampling out targetSampleRate
    unfold processReplacingWith
    simp [hs]

/-- C10, witness: the engine of `scenarioA`, streaming with a producer and
10000 queued bytes, is stopped. -/
theorem stopCurrentStream_postcondition_witness :
    (scenarioA.streaming = true → scenarioA.device ≠ none) ∧
      (stopCurrentStream toyEnv scenarioA).streaming = false ∧
      (stopCurrentStream toyEnv scenarioA).device = none ∧
      (stopCurrentStream toyEnv scenarioA).bytesToDecode = [] :=
  ⟨fun _ => by decide,
    (stopCurrentStream_postcondition toyEnv scenarioA (fun _ => by decide)).1,
    (stopCurrentStream_postcondition toyEnv scenarioA (fun _ => by decide)).2.1,
    (stopCurrentStream_postcondition toyEnv scenarioA (fun _ => by decide)).2.2.1⟩

end AbstractMp3Streamer

namespace AudioFileStreamerNode

variable {D F P : Type}

theorem decode_nothing_queued (env : Collaborators D F P) (s : AbstractMp3Streamer D F P)
    (maxBytesToDecode : Nat) (hq : s.bytesToDecode = []) :
    AbstractMp3Streamer.decode env s maxBytesToDecode = s := by
  unfold AbstractMp3Streamer.decode AbstractMp3Streamer.decodeTrace
  cases hdev : s.device with
  | none => rfl
  | some d =>
    have hnot : ¬ (min (toInt maxBytesToDecode) ((s.bytesToDecode.length : Nat) : Int) > 0) := by
      rw [hq]; simp
    simp only [hnot, if_false]

/-- With an empty byte queue and fewer buffered frames than the output asks
for, the top-up loop is still running after any number of iterations. -/
theorem topUp_stuck (env : Collaborators D F P) (outLenght : Int) (s : AbstractMp3Streamer D F P)
    (hq : s.bytesToDecode = [])
    (hlt : SamplesBuffer.getFrameLenght s.bufferedSamples < outLenght) (fuel : Nat) :
    topUp env outLenght fuel s = none := by
  induction fuel with
  | zero => simp [topUp, hlt]
  | succ fuel ih =>
    unfold topUp
    rw [if_pos hlt, decode_nothing_queued env s _ hq]
    exact ih

/-- C8 (code bug): on the file engine whose file could not be opened, the
render call for an output of one frame never leaves its top-up loop: whatever
the number of iterations allowed, the loop condition still holds. -/
theorem processReplacing_never_returns (fuel : Nat) :
    processReplacing toyEnv fuel failedOpen [0] 44100 = none := by
  unfold processReplacing
  rw [topUp_stuck toyEnv _ failedOpen rfl (by decide) fuel]
  rfl

end AudioFileStreamerNode

namespace NinjamRoomStreamerNode

variable {D F P : Type}

/-- C11: the base `needResamplingFor` is true exactly when the engine is
streaming and the target rate differs from the decoder's rate; the network
variant's `needResamplingFor` is false whenever the engine is not streaming
or is buffering, whatever the rates are. -/
theorem needResamplingFor_decision (env : Collaborators D F P) (s : AbstractMp3Streamer D F P)
    (n : NinjamRoomStreamerNode D F P) (targetSampleRate : Int) :
    (AbstractMp3Streamer.needResamplingFor env s targetSampleRate = true
        ↔ s.streaming = true ∧ targetSampleRate ≠ AbstractMp3Streamer.getSampleRate env s) ∧
      (n.streaming = false ∨ n.buffering = true →
        needResamplingFor env n targetSampleRate = false) := by
  constructor
  · unfold AbstractMp3Streamer.needResamplingFor
    cases hs : s.streaming <;> simp
  · intro h
    unfold needResamplingFor
    rcases h with h | h <;> simp [h]

/-- C11, witness: a freshly opened session is buffering, so it needs no
resampling for 48000 Hz although its decoder runs at 44100 Hz. -/
theorem needResamplingFor_decision_witness :
    (openSession.streaming = false ∨ openSession.buffering = true) ∧
      needResamplingFor toyEnv openSession 48000 = false ∧
      AbstractMp3Streamer.needResamplingFor toyEnv openSession.toAbstractMp3Streamer 48000 = true :=
  ⟨Or.inr rfl,
    (needResamplingFor_decision toyEnv openSession.toAbstractMp3Streamer openSession 48000).2
      (Or.inr rfl),
    (needResamplingFor_decision toyEnv openSession.toAbstractMp3Streamer openSession 48000).1.mpr
      ⟨rfl, by decide⟩⟩

/-- C16: `on_reply_error` emits exactly one error message and returns the
object state it was given, for every state and error code; so every render
call after it gives what it would have given without the error. -/
theorem on_reply_error_changes_nothing (env : Collaborators D F P)
    (s : NinjamRoomStreamerNode D F P) (error : Nat) :
    (on_reply_error s error).1 = s ∧
      (on_reply_error s error).2 = ["ERROR playing room stream"] ∧
      (on_reply_error s error).2.length = 1 ∧
      (∀ (out : SamplesBuffer F) (sampleRate : Int),
        processReplacing env (on_reply_error s error).1 out sampleRate
          = processReplacing env s out sampleRate) :=
  ⟨rfl, rfl, rfl, fun _ _ => rfl⟩

end NinjamRoomStreamerNode

namespace AbstractMp3Streamer

variable {D F P : Type}

/-- C12: on an engine that is not streaming or holds no buffered frame the
base render returns the object state (sample buffer, byte queue, peak meter,
streaming flag and all) and the caller's output unchanged, whatever the
resampling decision, the target rate and the output length. -/
theorem processReplacing_idle_noop (env : Collaborators D F P) (s : AbstractMp3Streamer D F P)
    (out : SamplesBuffer F) (targetSampleRate : Int)
    (hidle : s.streaming = false ∨ SamplesBuffer.getFrameLenght s.bufferedSamples = 0) :
    processReplacing env s out targetSampleRate = (s, out) ∧
      (∀ needResampling : Bool,
        processReplacingWith env needResampling s out targetSampleRate = (s, out)) := by
  have h : ∀ needResampling : Bool,
      processReplacingWith env needResampling s out targetSampleRate = (s, out) := by
    intro needResampling
    unfold processReplacingWith
    rcases hidle with h | h
    · simp [h]
    · simp [SamplesBuffer.isEmpty, h]
  exact ⟨h _, h⟩

/-- C12, witness: a stopped engine leaves an output of two frames as it is. -/
theorem processReplacing_idle_noop_witness :
    ((stopCurrentStream toyEnv threeFrames).streaming = false ∨
        SamplesBuffer.getFrameLenght (stopCurrentStream toyEnv threeFrames).bufferedSamples = 0) ∧
      processReplacing toyEnv (stopCurrentStream toyEnv threeFrames) [3, 4] 48000
        = (stopCurrentStream toyEnv threeFrames, [3, 4]) :=
  ⟨Or.inl rfl,
    (processReplacing_idle_noop toyEnv (stopCurrentStream toyEnv threeFrames) [3, 4] 48000
      (Or.inl rfl)).1⟩

/-- C15: without a producer `decode` returns the object state unchanged, byte
queue and sample buffer included, and hands no chunk to the decoder, for
every argument and even when bytes are queued. -/
theorem decode_without_producer (env : Collaborators D F P) (s : AbstractMp3Streamer D F P)
    (maxBytesToDecode : Nat) (hdev : s.device = none) :
    decode env s maxBytesToDecode = s ∧
      (decode env s maxBytesToDecode).bytesToDecode = s.bytesToDecode ∧
      (decode env s maxBytesToDecode).bufferedSamples = s.bufferedSamples ∧
      (decodeTrace env s maxBytesToDecode).2 = [] := by
  unfold decode
  rw [decodeTrace_none env s maxBytesToDecode hdev]
  exact ⟨rfl, rfl, rfl, rfl⟩

/-- C15, witness: an engine without producer and with three queued bytes. -/
theorem decode_without_producer_witness :
    queuedWithoutProducer.device = none ∧
      (decode toyEnv queuedWithoutProducer 4096).bytesToDecode = [1, 2, 3] ∧
      (decodeTrace toyEnv queuedWithoutProducer 4096).2 = [] :=
  ⟨rfl, (decode_without_producer toyEnv queuedWithoutProducer 4096 rfl).2.1,
    (decode_without_producer toyEnv queuedWithoutProducer 4096 rfl).2.2.2⟩

end AbstractMp3Streamer

namespace AbstractMp3Streamer

variable {D F P : Type}

theorem decodeBlocks_concat (env : Collaborators D F P) (d : D) (chunks : List (List Byte))
    (chunk : List Byte) :
    decodeBlocks env d (chunks ++ [chunk])
      = ((env.decode (decodeBlocks env d chunks).1 chunk).1,
          (decodeBlocks env d chunks).2 ++ [(env.decode (decodeBlocks env d chunks).1 chunk).2]) := by
  unfold decodeBlocks
  rw [List.foldl_append]
  rfl

theorem decodeBlocks_length (env : Collaborators D F P) (d : D) (chunks : List (List Byte)) :
    (decodeBlocks env d chunks).2.length = chunks.length := by
  induction chunks using List.reverseRecOn with
  | nil => rfl
  | append_singleton chunks chunk ih =>
    rw [decodeBlocks_concat, List.length_append, List.length_append, ih]
    rfl

/-- The loop of `decode` keeps this relation between its variables: the
decoder state and the sample buffer are what running the decoder over the
chunks handed so far gives, the blocks appended to the buffer `base`. -/
theorem decodeLoop_blocks (env : Collaborators D F P) (bytes : List Byte) (total : Int)
    (d0 : D) (base : SamplesBuffer F) (fuel : Nat) :
    ∀ st : DecodeLoop D F,
      st.decoder = (decodeBlocks env d0 st.chunks).1 →
      st.bufferedSamples = base ++ (decodeBlocks env d0 st.chunks).2.flatten →
      (decodeLoop env bytes total fuel st).decoder
          = (decodeBlocks env d0 (decodeLoop env bytes total fuel st).chunks).1 ∧
        (decodeLoop env bytes total fuel st).bufferedSamples
          = base ++ (decodeBlocks env d0 (decodeLoop env bytes total fuel st).chunks).2.flatten := by
  induction fuel with
  | zero => intro st h1 h2; exact ⟨h1, h2⟩
  | succ fuel ih =>
    intro st h1 h2
    unfold decodeLoop
    by_cases hlt : st.bytesProcessed < total
    · simp only [hlt, if_true]
      apply ih
      · simp only [decodeBlocks_concat, h1]
      · simp only [decodeBlocks_concat, SamplesBuffer.append, h2, h1, List.flatten_append,
          List.flatten_cons, List.flatten_nil, List.append_nil, List.append_assoc]
    · simp only [hlt, if_false]
      exact ⟨h1, h2⟩

/-- What one call of `decode` does to the decoder and the sample buffer, for
every state and argument. -/
theorem decodeTrace_blocks (env : Collaborators D F P) (s : AbstractMp3Streamer D F P)
    (maxBytesToDecode : Nat) :
    (decodeTrace env s maxBytesToDecode).1.decoder
        = (decodeBlocks env s.decoder (decodeTrace env s maxBytesToDecode).2).1 ∧
      (decodeTrace env s maxBytesToDecode).1.bufferedSamples
        = s.bufferedSamples
          ++ (decodeBlocks env s.decoder (decodeTrace env s maxBytesToDecode).2).2.flatten := by
  unfold decodeTrace
  cases hdev : s.device with
  | none => simp [decodeBlocks]
  | some d =>
    simp only
    by_cases hpos : min (toInt maxBytesToDecode) (s.bytesToDecode.length : Int) > 0
    · rw [if_pos hpos]
      exact decodeLoop_blocks env s.bytesToDecode _ s.decoder s.bufferedSamples _
        { decoder := s.decoder, bytesProcessed := 0, bufferedSamples := s.bufferedSamples, chunks := [] }
        (by simp [decodeBlocks]) (by simp [decodeBlocks])
    · rw [if_neg hpos]
      simp [decodeBlocks]

/-- C14: with a producer attached, after `decode` the sample buffer is the old
sample buffer followed by the blocks the decoder returned for the chunks, in
chunk order: its frame count grows by the sum of the blocks' frame counts, the
frames buffered before are its first frames unchanged, and the chunks handed
over are cut as `chunkLengths` says whatever the decoder returns (an empty
block adds nothing and the loop goes on). -/
theorem decode_appends_decoded_blocks (env : Collaborators D F P)
    (s : AbstractMp3Streamer D F P) (d : QIODevice) (maxBytesToDecode : Nat)
    (hdev : s.device = some d) :
    (decode env s maxBytesToDecode).bufferedSamples
        = s.bufferedSamples
          ++ (decodeBlocks env s.decoder (decodeTrace env s maxBytesToDecode).2).2.flatten ∧
      (decode env s maxBytesToDecode).bufferedSamples.length
        = s.bufferedSamples.length
          + ((decodeBlocks env s.decoder (decodeTrace env s maxBytesToDecode).2).2.map
              List.length).sum ∧
      (decode env s maxBytesToDecode).bufferedSamples.take s.bufferedSamples.length
        = s.bufferedSamples ∧
      (decodeTrace env s maxBytesToDecode).2.map List.length
        = chunkLengths (consumed maxBytesToDecode s.bytesToDecode.length) ∧
      (decodeBlocks env s.decoder (decodeTrace env s maxBytesToDecode).2).2.length
        = (decodeTrace env s maxBytesToDecode).2.length := by
  have hb : (decode env s maxBytesToDecode).bufferedSamples
      = s.bufferedSamples
        ++ (decodeBlocks env s.decoder (decodeTrace env s maxBytesToDecode).2).2.flatten :=
    (decodeTrace_blocks env s maxBytesToDecode).2
  refine ⟨hb, ?_, ?_, (decodeTrace_spec env s d maxBytesToDecode hdev).2.1, ?_⟩
  · rw [hb, List.length_append, List.length_flatten]
  · rw [hb, List.take_left]
  · exact decodeBlocks_length env s.decoder _

end AbstractMp3Streamer

namespace AbstractMp3Streamer

variable {D F P : Type}

/-- C14, witness: two buffered frames, three queued bytes and `decode(2)`: the
two decoded frames follow the two old ones. -/
theorem decode_appends_decoded_blocks_witness :
    threeQueued.device = some { isOpen := true, isReadable := true } ∧
      (decode toyEnv threeQueued 2).bufferedSamples = [8, 9, 1, 2] :=
  ⟨rfl, (decode_appends_decoded_blocks toyEnv threeQueued { isOpen := true, isReadable := true } 2
    rfl).1.trans (by decide)⟩

theorem processReplacingWith_bytesToDecode (env : Collaborators D F P) (needResampling : Bool)
    (s : AbstractMp3Streamer D F P) (out : SamplesBuffer F) (targetSampleRate : Int) :
    (processReplacingWith env needResampling s out targetSampleRate).1.bytesToDecode
      = s.bytesToDecode := by
  unfold processReplacingWith
  split
  · rfl
  · simp only
    split <;> rfl

theorem processReplacingWith_device (env : Collaborators D F P) (needResampling : Bool)
    (s : AbstractMp3Streamer D F P) (out : SamplesBuffer F) (targetSampleRate : Int) :
    (processReplacingWith env needResampling s out targetSampleRate).1.device = s.device := by
  unfold processReplacingWith
  split
  · rfl
  · simp only
    split <;> rfl

theorem processReplacingWith_streaming (env : Collaborators D F P) (needResampling : Bool)
    (s : AbstractMp3Streamer D F P) (out : SamplesBuffer F) (targetSampleRate : Int) :
    (processReplacingWith env needResampling s out targetSampleRate).1.streaming = s.streaming := by
  unfold processReplacingWith
  split
  · rfl
  · simp only
    split <;> rfl

/-- C18 (code bug): `twoFrames` holds `b = 2` frames at 44100 Hz and is
rendered into two frames at 22050 Hz: `outLenght = 2`, resampling is needed and
`samplesToRender = 4 > b`. The scratch input gets the two buffered frames and
two frames that were never buffered, and `discardFirstSamples(4)` is called on
a buffer of two frames. -/
theorem render_takes_more_frames_than_buffered :
    SamplesBuffer.getFrameLenght twoFrames.bufferedSamples = 2 ∧
      needResamplingFor toyEnv twoFrames 22050 = true ∧
      getInputResamplingLength (getSampleRate toyEnv twoFrames) 22050 2 = 4 ∧
      getSamplesToRender toyEnv (needResamplingFor toyEnv twoFrames 22050) twoFrames 22050
          (min (SamplesBuffer.getFrameLenght ([0, 0] : SamplesBuffer Int))
            (SamplesBuffer.getFrameLenght twoFrames.bufferedSamples)) = 4 ∧
      (processReplacing toyEnv twoFrames [0, 0] 22050).1.internalInputBuffer = [3, 4, 0, 0] ∧
      (processReplacing toyEnv twoFrames [0, 0] 22050).1.bufferedSamples = [] := by
  decide

end AbstractMp3Streamer

namespace NinjamRoomStreamerNode

variable {D F P : Type}

/-- An instance: a session with three buffered frames is given a new
source; the sample buffer then still has three frames (zero-filled), not
none. -/
theorem setStreamPath_keeps_frame_count :
    ¬ (SamplesBuffer.getFrameLenght
        (setStreamPath toyEnv streamingSession (QString.str ['n', 'e', 'w'])
          { isOpen := true, isReadable := true }).bufferedSamples = 0) := by
  decide

/-- What `setStreamPath` does on the network variant: afterwards, for every
prior state and identifier, the byte queue is empty, `buffering` is true, the
sample buffer is zero-filled (as many frames as before, all silent; none when
there were none), and the engine is streaming with the new producer attached
if and only if the identifier is non-empty; an empty or null identifier leaves
it not streaming and without producer. -/
theorem setStreamPath_postcondition (env : Collaborators D F P)
    (s : NinjamRoomStreamerNode D F P) (streamPath : QString) (reply : QIODevice) :
    (setStreamPath env s streamPath reply).bytesToDecode = [] ∧
      (setStreamPath env s streamPath reply).buffering = true ∧
      (setStreamPath env s streamPath reply).bufferedSamples
        = List.replicate s.bufferedSamples.length env.zeroFrame ∧
      ((setStreamPath env s streamPath reply).streaming = true ↔ streamPath.isEmpty = false) ∧
      (setStreamPath env s streamPath reply).device
        = (if streamPath.isEmpty then none else some reply) := by
  have hz : ∀ b : SamplesBuffer F,
      SamplesBuffer.zero env.zeroFrame b = List.replicate b.length env.zeroFrame := by
    intro b
    unfold SamplesBuffer.zero
    exact List.map_const b env.zeroFrame
  have hstop : (AbstractMp3Streamer.stopCurrentStream env s.toAbstractMp3Streamer).device = none := by
    unfold AbstractMp3Streamer.stopCurrentStream
    cases hdev : s.device <;> simp [hdev]
  have hbuf : (AbstractMp3Streamer.stopCurrentStream env s.toAbstractMp3Streamer).bufferedSamples.length
      = s.bufferedSamples.length := by
    unfold AbstractMp3Streamer.stopCurrentStream
    cases hdev : s.device <;> simp [hdev, SamplesBuffer.zero]
  unfold setStreamPath initializeStream AbstractMp3Streamer.initializeStream
  cases streamPath with
  | null => simp [QString.isEmpty, QString.isNull, hz, hbuf, hstop]
  | str cs =>
    cases hcs : cs.isEmpty <;> simp [QString.isEmpty, QString.isNull, hz, hbuf, hstop, hcs]

theorem decode_bytes (env : Collaborators D F P) (s : NinjamRoomStreamerNode D F P)
    (d : QIODevice) (hdev : s.device = some d) :
    (decode env s 4096).bytesToDecode = s.bytesToDecode.drop 4096 ∧
      (decode env s 4096).device = some d := by
  have h := (AbstractMp3Streamer.decodeTrace_spec env s.toAbstractMp3Streamer d 4096 hdev).2.2
  rw [AbstractMp3Streamer.consumed_of_lt _ _ (by norm_num)] at h
  have hd := AbstractMp3Streamer.decodeTrace_device env s.toAbstractMp3Streamer 4096
  refine ⟨?_, hd.trans hdev⟩
  show (AbstractMp3Streamer.decodeTrace env s.toAbstractMp3Streamer 4096).1.bytesToDecode = _
  rw [h]
  rcases Nat.le_total 4096 s.bytesToDecode.length with hle | hle
  · rw [Nat.min_eq_left hle]
  · rw [Nat.min_eq_right hle, List.drop_eq_nil_of_le (Nat.le_refl _), List.drop_eq_nil_of_le hle]

theorem processReplacing_bytesToDecode (env : Collaborators D F P)
    (s : NinjamRoomStreamerNode D F P) (out : SamplesBuffer F) (sampleRate : Int) :
    (processReplacing env s out sampleRate).1.bytesToDecode
      = (processReplacingDecode env s out sampleRate).bytesToDecode := by
  unfold processReplacing
  simp only
  split <;> split <;>
    first
    | rfl
    | exact AbstractMp3Streamer.processReplacingWith_bytesToDecode env _ _ out sampleRate

end NinjamRoomStreamerNode

namespace NinjamRoomStreamerNode

variable {D F P : Type}

theorem drop_min_length {α : Type} (l : List α) (k : Nat) :
    l.drop (min k l.length) = l.drop k := by
  rcases Nat.le_total k l.length with hle | hle
  · rw [Nat.min_eq_left hle]
  · rw [Nat.min_eq_right hle, List.drop_eq_nil_of_le (Nat.le_refl _), List.drop_eq_nil_of_le hle]

/-- C17: one render call of the network variant with a producer attached and
`n` queued bytes takes from the front of the queue exactly `min 4096 n` bytes
when the engine is buffering on entry; when it is not, `min 4096 n` bytes if
the buffered frames suffice for `samplesToRender`, and `min 8192 n` bytes
otherwise. -/
theorem processReplacing_bytes_consumed (env : Collaborators D F P)
    (s : NinjamRoomStreamerNode D F P) (d : QIODevice) (out : SamplesBuffer F) (sampleRate : Int)
    (hdev : s.device = some d) :
    (s.buffering = true →
        (processReplacing env s out sampleRate).1.bytesToDecode
            = s.bytesToDecode.drop (min 4096 s.bytesToDecode.length) ∧
          (processReplacing env s out sampleRate).1.bytesToDecode.length
            = s.bytesToDecode.length - min 4096 s.bytesToDecode.length) ∧
      (s.buffering = false →
        ¬ (SamplesBuffer.getFrameLenght s.bufferedSamples
            < AbstractMp3Streamer.getSamplesToRender env (needResamplingFor env s sampleRate)
                s.toAbstractMp3Streamer sampleRate (SamplesBuffer.getFrameLenght out)) →
        (processReplacing env s out sampleRate).1.bytesToDecode
            = s.bytesToDecode.drop (min 4096 s.bytesToDecode.length) ∧
          (processReplacing env s out sampleRate).1.bytesToDecode.length
            = s.bytesToDecode.length - min 4096 s.bytesToDecode.length) ∧
      (s.buffering = false →
        SamplesBuffer.getFrameLenght s.bufferedSamples
            < AbstractMp3Streamer.getSamplesToRender env (needResamplingFor env s sampleRate)
                s.toAbstractMp3Streamer sampleRate (SamplesBuffer.getFrameLenght out) →
        (processReplacing env s out sampleRate).1.bytesToDecode
            = s.bytesToDecode.drop (min 8192 s.bytesToDecode.length) ∧
          (processReplacing env s out sampleRate).1.bytesToDecode.length
            = s.bytesToDecode.length - min 8192 s.bytesToDecode.length) := by
  have hlen : ∀ (q : List Byte) (k : Nat), (processReplacing env s out sampleRate).1.bytesToDecode
      = q.drop (min k q.length) →
      (processReplacing env s out sampleRate).1.bytesToDecode = q.drop (min k q.length) ∧
        (processReplacing env s out sampleRate).1.bytesToDecode.length
          = q.length - min k q.length := by
    intro q k h
    exact ⟨h, by rw [h, List.length_drop]⟩
  obtain ⟨h1, hd1⟩ := decode_bytes env s d hdev
  obtain ⟨h2, _⟩ := decode_bytes env (decode env s 4096) d hd1
  refine ⟨?_, ?_, ?_⟩
  · intro hbuf
    apply hlen
    rw [processReplacing_bytesToDecode, drop_min_length]
    unfold processReplacingDecode
    simp only [hbuf, Bool.not_true, Bool.false_eq_true, if_false]
    exact h1
  · intro hbuf hge
    apply hlen
    rw [processReplacing_bytesToDecode, drop_min_length]
    unfold processReplacingDecode
    simp only [hbuf, Bool.not_false, if_true, hge, if_false]
    exact h1
  · intro hbuf hlt
    apply hlen
    rw [processReplacing_bytesToDecode, drop_min_length]
    unfold processReplacingDecode
    simp only [hbuf, Bool.not_false, if_true, hlt]
    rw [h2, h1, List.drop_drop]

/-- C17, witness: a buffering session with three queued bytes has none left
after one render call. -/
theorem processReplacing_bytes_consumed_witness :
    bufferingQueued.device = some { isOpen := true, isReadable := true } ∧
      bufferingQueued.buffering = true ∧
      (processReplacing toyEnv bufferingQueued [0, 0] 44100).1.bytesToDecode = [] :=
  ⟨rfl, rfl,
    ((processReplacing_bytes_consumed toyEnv bufferingQueued { isOpen := true, isReadable := true }
      [0, 0] 44100 rfl).1 rfl).1⟩

end NinjamRoomStreamerNode

namespace NinjamRoomStreamerNode

variable {D F P : Type}

/-- The invariant of the network variant: a streaming engine has a producer
attached. -/
theorem streaming_has_producer_new (env : Collaborators D F P) (decoder : D)
    (bufferTimeInSeconds : Int) :
    (new env decoder bufferTimeInSeconds).streaming = false ∨
      (new env decoder bufferTimeInSeconds).device.isSome = true :=
  Or.inl rfl

theorem streaming_has_producer_setStreamPath (env : Collaborators D F P)
    (s : NinjamRoomStreamerNode D F P) (streamPath : QString) (reply : QIODevice) :
    (setStreamPath env s streamPath reply).streaming = false ∨
      (setStreamPath env s streamPath reply).device.isSome = true := by
  unfold setStreamPath initializeStream AbstractMp3Streamer.initializeStream
  cases streamPath with
  | null => left; simp [QString.isEmpty, QString.isNull]
  | str cs =>
    cases hcs : cs.isEmpty
    · right; simp [QString.isEmpty, hcs]
    · left; simp [QString.isEmpty, QString.isNull, hcs]

theorem stopCurrentStream_clears_streaming (env : Collaborators D F P)
    (s : NinjamRoomStreamerNode D F P)
    (hinv : s.streaming = false ∨ s.device.isSome = true) :
    (stopCurrentStream env s).streaming = false := by
  unfold stopCurrentStream AbstractMp3Streamer.stopCurrentStream
  cases hdev : s.device with
  | none =>
    rcases hinv with h | h
    · simp [h]
    · rw [hdev] at h; cases h
  | some d => simp

theorem processReplacingDecode_device (env : Collaborators D F P)
    (s : NinjamRoomStreamerNode D F P) (out : SamplesBuffer F) (sampleRate : Int) :
    (processReplacingDecode env s out sampleRate).device = s.device ∧
      (processReplacingDecode env s out sampleRate).streaming = s.streaming := by
  have hd : ∀ t : NinjamRoomStreamerNode D F P,
      (decode env t 4096).device = t.device ∧ (decode env t 4096).streaming = t.streaming :=
    fun t => ⟨AbstractMp3Streamer.decodeTrace_device env t.toAbstractMp3Streamer 4096,
      AbstractMp3Streamer.decodeTrace_streaming env t.toAbstractMp3Streamer 4096⟩
  unfold processReplacingDecode
  simp only
  split
  · split
    · exact ⟨((hd _).1).trans (hd s).1, ((hd _).2).trans (hd s).2⟩
    · exact hd s
  · exact hd s

theorem processReplacing_device (env : Collaborators D F P)
    (s : NinjamRoomStreamerNode D F P) (out : SamplesBuffer F) (sampleRate : Int) :
    (processReplacing env s out sampleRate).1.device = s.device ∧
      (processReplacing env s out sampleRate).1.streaming = s.streaming := by
  obtain ⟨h1, h2⟩ := processReplacingDecode_device env s out sampleRate
  constructor
  · rw [← h1]
    unfold processReplacing
    simp only
    split <;> split <;>
      first
      | rfl
      | exact AbstractMp3Streamer.processReplacingWith_device env _ _ out sampleRate
  · rw [← h2]
    unfold processReplacing
    simp only
    split <;> split <;>
      first
      | rfl
      | exact AbstractMp3Streamer.processReplacingWith_streaming env _ _ out sampleRate

theorem on_reply_read_device (s : NinjamRoomStreamerNode D F P) (payload : List Byte) :
    (on_reply_read s payload).device = s.device ∧
      (on_reply_read s payload).streaming = s.streaming := by
  unfold on_reply_read
  split
  · exact ⟨rfl, rfl⟩
  · split <;> exact ⟨rfl, rfl⟩

theorem streaming_has_producer_applyOp (env : Collaborators D F P)
    (s : NinjamRoomStreamerNode D F P) (op : NodeOp F)
    (hinv : s.streaming = false ∨ s.device.isSome = true) :
    (applyOp env s op).streaming = false ∨ (applyOp env s op).device.isSome = true := by
  cases op with
  | setStreamPath streamPath reply => exact streaming_has_producer_setStreamPath env s streamPath reply
  | stopCurrentStream => exact Or.inl (stopCurrentStream_clears_streaming env s hinv)
  | processReplacing out sampleRate =>
    obtain ⟨h1, h2⟩ := processReplacing_device env s out sampleRate
    show (processReplacing env s out sampleRate).1.streaming = false ∨
      (processReplacing env s out sampleRate).1.device.isSome = true
    rw [h1, h2]; exact hinv
  | on_reply_read payload =>
    obtain ⟨h1, h2⟩ := on_reply_read_device s payload
    show (on_reply_read s payload).streaming = false ∨ (on_reply_read s payload).device.isSome = true
    rw [h1, h2]; exact hinv
  | on_reply_error error => exact hinv

theorem streaming_has_producer_runOps (env : Collaborators D F P) (ops : List (NodeOp F)) :
    ∀ s : NinjamRoomStreamerNode D F P, (s.streaming = false ∨ s.device.isSome = true) →
      ((runOps env s ops).streaming = false ∨ (runOps env s ops).device.isSome = true) := by
  induction ops with
  | nil => intro s h; exact h
  | cons op ops ih =>
    intro s h
    exact ih (applyOp env s op) (streaming_has_producer_applyOp env s op h)

/-- C19: in every state reached from a freshly constructed
`NinjamRoomStreamerNode` by any finite sequence of `setStreamPath`,
`stopCurrentStream`, render calls, `on_reply_read` and `on_reply_error`, the
engine is not streaming or has a producer attached (streaming implies a
non-null `device`), and `stopCurrentStream` clears the streaming flag. -/
theorem reachable_streaming_has_producer (env : Collaborators D F P) (decoder : D)
    (bufferTimeInSeconds : Int) (ops : List (NodeOp F)) :
    ((runOps env (new env decoder bufferTimeInSeconds) ops).streaming = false ∨
        (runOps env (new env decoder bufferTimeInSeconds) ops).device ≠ none) ∧
      (stopCurrentStream env (runOps env (new env decoder bufferTimeInSeconds) ops)).streaming
        = false := by
  have h := streaming_has_producer_runOps env ops (new env decoder bufferTimeInSeconds)
    (streaming_has_producer_new env decoder bufferTimeInSeconds)
  refine ⟨?_, stopCurrentStream_clears_streaming env _ h⟩
  rcases h with h | h
  · exact Or.inl h
  · right
    intro hnone
    rw [hnone] at h
    cases h

end NinjamRoomStreamerNode

namespace AbstractMp3Streamer

variable {D F P : Type}

/-- C6 (code bug): `distinctFrames` holds the frames 10, 20, 30 and is
rendered twice into two silent frames at the decoder's rate. The first call
consumes `k = 2` frames and leaves the buffer `[30]`, as the claim says. The
second call (one frame left, two asked for) puts 30 into output frame 0 and
adds 20 to output frame 1: old frame 1, consumed by the first call, is
rendered again, through the scratch output buffer that keeps its length `m`
and its old tail. -/
theorem render_replays_consumed_frame :
    (processReplacing toyEnv distinctFrames [0, 0] 44100).2 = [10, 20] ∧
      (processReplacing toyEnv distinctFrames [0, 0] 44100).1.bufferedSamples = [30] ∧
      (processReplacing toyEnv (processReplacing toyEnv distinctFrames [0, 0] 44100).1
        [0, 0] 44100).1.internalInputBuffer = [30] ∧
      (processReplacing toyEnv (processReplacing toyEnv distinctFrames [0, 0] 44100).1
        [0, 0] 44100).2 = [30, 20] := by
  decide

end AbstractMp3Streamer

namespace NinjamRoomStreamerNode

variable {D F P : Type}

/-- A buffering engine with nothing queued whose sample buffer already holds
the threshold leaves buffering in the render call. -/
theorem processReplacing_opens_on_held_frames (env : Collaborators D F P)
    (s : NinjamRoomStreamerNode D F P) (out : SamplesBuffer F) (sampleRate : Int)
    (hbuf : s.buffering = true) (hq : s.bytesToDecode = [])
    (hge : SamplesBuffer.getFrameLenght s.bufferedSamples
      ≥ s.bufferTime * env.getSampleRate s.decoder) :
    (processReplacing env s out sampleRate).1.buffering = false := by
  have hd : processReplacingDecode env s out sampleRate = s := by
    unfold processReplacingDecode
    simp only [hbuf, Bool.not_true, Bool.false_eq_true, if_false]
    exact decode_empty_queue env s 4096 hq
  unfold processReplacing
  rw [hd]
  simp [hbuf, hge]

/-- C13 (code bug): `fullSession` holds 132300 frames and is given a new
source. After `setStreamPath` the byte queue is empty, `buffering` is true and
the engine streams with the new producer, but the sample buffer still has
132300 frames (silent ones), not 0: `zero()` fills, it does not empty. With
`bufferTime = 3` at 44100 Hz these frames are the whole threshold, so the first
render call of the new stream leaves buffering before any byte of it has
arrived. -/
theorem setStreamPath_leaves_frames_that_open_the_gate :
    nextSession.bytesToDecode = [] ∧ nextSession.buffering = true ∧
      nextSession.streaming = true ∧
      nextSession.device = some { isOpen := true, isReadable := true } ∧
      SamplesBuffer.getFrameLenght nextSession.bufferedSamples = 132300 ∧
      nextSession.bufferedSamples = List.replicate 132300 0 ∧
      (processReplacing toyEnv nextSession [0, 0] 44100).1.buffering = false := by
  have hb : nextSession.bufferedSamples = List.replicate 132300 0 := by
    have h := (setStreamPath_postcondition toyEnv fullSession (QString.str ['n', 'e', 'w'])
      { isOpen := true, isReadable := true }).2.2.1
    have hl : fullSession.bufferedSamples.length = 132300 := by
      show (List.replicate 132300 (1 : Int)).length = 132300
      rw [List.length_replicate]
    rw [hl] at h
    exact h
  have hlen : SamplesBuffer.getFrameLenght nextSession.bufferedSamples = 132300 := by
    rw [hb]
    show ((List.replicate 132300 (0 : Int)).length : Int) = 132300
    rw [List.length_replicate]
    rfl
  refine ⟨rfl, rfl, rfl, rfl, hlen, hb, ?_⟩
  apply processReplacing_opens_on_held_frames toyEnv nextSession [0, 0] 44100 rfl rfl
  rw [hlen]
  show (132300 : Int) ≥ 3 * 44100
  norm_num

end NinjamRoomStreamerNode

end Audio
